import Mathlib

/-!
Verification of the PKCS#11 object/attribute subsystem and mechanism
gatekeeper of the OP-TEE secure key services trusted application.

The development shallowly embeds the C sources:
  * `pkcs11_attributes.c` (object builder and policy checks),
  * `token_capabilities.c` (mechanism catalog),
  * `sanitize_object.c` (client template sanitizer),
together with the constants from `pkcs11_ta.h` and `attributes.h`.

Serialized attribute lists ("blobs") are modelled as lists of
(identifier, value bytes) pairs; the C stores the same data as a
contiguous byte array behind a `{attrs_size, attrs_count}` header.
Memory allocation failures (`PKCS11_CKR_DEVICE_MEMORY`) are outside the
model: `add_attribute` always succeeds.

The attribute accessors (`attributes.c`) are not part of the source
tree; they are modelled from the specification of §4.1 and from the
documented contracts in `attributes.h`.
-/

namespace Pkcs11

/-! ## Constants from `pkcs11_ta.h` -/

def PKCS11_UNDEFINED_ID : Nat := 0xFFFFFFFF

/- Attribute identifiers (`enum pkcs11_attr_id`). -/
def PKCS11_CKA_CLASS : Nat := 0x0000
def PKCS11_CKA_TOKEN : Nat := 0x0001
def PKCS11_CKA_PRIVATE : Nat := 0x0002
def PKCS11_CKA_LABEL : Nat := 0x0003
def PKCS11_CKA_APPLICATION : Nat := 0x0010
def PKCS11_CKA_VALUE : Nat := 0x0011
def PKCS11_CKA_OBJECT_ID : Nat := 0x0012
def PKCS11_CKA_TRUSTED : Nat := 0x0086
def PKCS11_CKA_KEY_TYPE : Nat := 0x0100
def PKCS11_CKA_SUBJECT : Nat := 0x0101
def PKCS11_CKA_ID : Nat := 0x0102
def PKCS11_CKA_SENSITIVE : Nat := 0x0103
def PKCS11_CKA_ENCRYPT : Nat := 0x0104
def PKCS11_CKA_DECRYPT : Nat := 0x0105
def PKCS11_CKA_WRAP : Nat := 0x0106
def PKCS11_CKA_UNWRAP : Nat := 0x0107
def PKCS11_CKA_SIGN : Nat := 0x0108
def PKCS11_CKA_SIGN_RECOVER : Nat := 0x0109
def PKCS11_CKA_VERIFY : Nat := 0x010a
def PKCS11_CKA_VERIFY_RECOVER : Nat := 0x010b
def PKCS11_CKA_DERIVE : Nat := 0x010c
def PKCS11_CKA_START_DATE : Nat := 0x0110
def PKCS11_CKA_END_DATE : Nat := 0x0111
def PKCS11_CKA_MODULUS : Nat := 0x0120
def PKCS11_CKA_MODULUS_BITS : Nat := 0x0121
def PKCS11_CKA_PUBLIC_EXPONENT : Nat := 0x0122
def PKCS11_CKA_PRIVATE_EXPONENT : Nat := 0x0123
def PKCS11_CKA_PRIME_1 : Nat := 0x0124
def PKCS11_CKA_PRIME_2 : Nat := 0x0125
def PKCS11_CKA_EXPONENT_1 : Nat := 0x0126
def PKCS11_CKA_EXPONENT_2 : Nat := 0x0127
def PKCS11_CKA_COEFFICIENT : Nat := 0x0128
def PKCS11_CKA_PUBLIC_KEY_INFO : Nat := 0x0129
def PKCS11_CKA_VALUE_LEN : Nat := 0x0161
def PKCS11_CKA_EXTRACTABLE : Nat := 0x0162
def PKCS11_CKA_LOCAL : Nat := 0x0163
def PKCS11_CKA_NEVER_EXTRACTABLE : Nat := 0x0164
def PKCS11_CKA_ALWAYS_SENSITIVE : Nat := 0x0165
def PKCS11_CKA_MODIFIABLE : Nat := 0x0170
def PKCS11_CKA_COPYABLE : Nat := 0x0171
def PKCS11_CKA_DESTROYABLE : Nat := 0x0172
def PKCS11_CKA_EC_PARAMS : Nat := 0x0180
def PKCS11_CKA_EC_POINT : Nat := 0x0181
def PKCS11_CKA_ALWAYS_AUTHENTICATE : Nat := 0x0202
def PKCS11_CKA_WRAP_WITH_TRUSTED : Nat := 0x0210
def PKCS11_CKA_WRAP_TEMPLATE : Nat := 0x40000211
def PKCS11_CKA_UNWRAP_TEMPLATE : Nat := 0x40000212
def PKCS11_CKA_DERIVE_TEMPLATE : Nat := 0x40000213
def PKCS11_CKA_ALLOWED_MECHANISMS : Nat := 0x40000600
def PKCS11_CKA_EC_POINT_X : Nat := 0x80001000
def PKCS11_CKA_EC_POINT_Y : Nat := 0x80001001
def PKCS11_CKA_UNDEFINED_ID : Nat := PKCS11_UNDEFINED_ID

/- Object classes (`enum pkcs11_class_id`). -/
def PKCS11_CKO_DATA : Nat := 0x000
def PKCS11_CKO_CERTIFICATE : Nat := 0x001
def PKCS11_CKO_PUBLIC_KEY : Nat := 0x002
def PKCS11_CKO_PRIVATE_KEY : Nat := 0x003
def PKCS11_CKO_SECRET_KEY : Nat := 0x004
def PKCS11_CKO_HW_FEATURE : Nat := 0x005
def PKCS11_CKO_DOMAIN_PARAMETERS : Nat := 0x006
def PKCS11_CKO_MECHANISM : Nat := 0x007
def PKCS11_CKO_OTP_KEY : Nat := 0x008
def PKCS11_CKO_UNDEFINED_ID : Nat := PKCS11_UNDEFINED_ID

/- Key types (`enum pkcs11_key_type`). -/
def PKCS11_CKK_RSA : Nat := 0x000
def PKCS11_CKK_DSA : Nat := 0x001
def PKCS11_CKK_DH : Nat := 0x002
def PKCS11_CKK_EC : Nat := 0x003
def PKCS11_CKK_GENERIC_SECRET : Nat := 0x010
def PKCS11_CKK_AES : Nat := 0x01f
def PKCS11_CKK_MD5_HMAC : Nat := 0x027
def PKCS11_CKK_SHA_1_HMAC : Nat := 0x028
def PKCS11_CKK_SHA256_HMAC : Nat := 0x02b
def PKCS11_CKK_SHA384_HMAC : Nat := 0x02c
def PKCS11_CKK_SHA512_HMAC : Nat := 0x02d
def PKCS11_CKK_SHA224_HMAC : Nat := 0x02e
def PKCS11_CKK_UNDEFINED_ID : Nat := PKCS11_UNDEFINED_ID

/- Return codes (`enum pkcs11_rc`). -/
def PKCS11_CKR_OK : Nat := 0
def PKCS11_CKR_GENERAL_ERROR : Nat := 0x0005
def PKCS11_CKR_ATTRIBUTE_VALUE_INVALID : Nat := 0x0013
def PKCS11_CKR_DEVICE_MEMORY : Nat := 0x0031
def PKCS11_CKR_KEY_SIZE_RANGE : Nat := 0x0062
def PKCS11_CKR_KEY_FUNCTION_NOT_PERMITTED : Nat := 0x0068
def PKCS11_CKR_MECHANISM_INVALID : Nat := 0x0070
def PKCS11_CKR_SESSION_READ_ONLY : Nat := 0x00b5
def PKCS11_CKR_TEMPLATE_INCONSISTENT : Nat := 0x00d1
def PKCS11_CKR_USER_NOT_LOGGED_IN : Nat := 0x0101
def PKCS11_RV_NOT_FOUND : Nat := 0x80000000

/- Mechanism identifiers (`enum pkcs11_mechanism_id`). -/
def PKCS11_CKM_RSA_PKCS_KEY_PAIR_GEN : Nat := 0x00000
def PKCS11_CKM_RSA_PKCS : Nat := 0x00001
def PKCS11_CKM_RSA_9796 : Nat := 0x00002
def PKCS11_CKM_RSA_X_509 : Nat := 0x00003
def PKCS11_CKM_SHA1_RSA_PKCS : Nat := 0x00006
def PKCS11_CKM_RSA_PKCS_OAEP : Nat := 0x00009
def PKCS11_CKM_RSA_PKCS_PSS : Nat := 0x0000d
def PKCS11_CKM_SHA1_RSA_PKCS_PSS : Nat := 0x0000e
def PKCS11_CKM_DH_PKCS_DERIVE : Nat := 0x00021
def PKCS11_CKM_SHA256_RSA_PKCS : Nat := 0x00040
def PKCS11_CKM_SHA384_RSA_PKCS : Nat := 0x00041
def PKCS11_CKM_SHA512_RSA_PKCS : Nat := 0x00042
def PKCS11_CKM_SHA256_RSA_PKCS_PSS : Nat := 0x00043
def PKCS11_CKM_SHA384_RSA_PKCS_PSS : Nat := 0x00044
def PKCS11_CKM_SHA512_RSA_PKCS_PSS : Nat := 0x00045
def PKCS11_CKM_SHA224_RSA_PKCS : Nat := 0x00046
def PKCS11_CKM_SHA224_RSA_PKCS_PSS : Nat := 0x00047
def PKCS11_CKM_MD5 : Nat := 0x00210
def PKCS11_CKM_MD5_HMAC : Nat := 0x00211
def PKCS11_CKM_SHA_1 : Nat := 0x00220
def PKCS11_CKM_SHA_1_HMAC : Nat := 0x00221
def PKCS11_CKM_SHA256 : Nat := 0x00250
def PKCS11_CKM_SHA256_HMAC : Nat := 0x00251
def PKCS11_CKM_SHA224 : Nat := 0x00255
def PKCS11_CKM_SHA224_HMAC : Nat := 0x00256
def PKCS11_CKM_SHA384 : Nat := 0x00260
def PKCS11_CKM_SHA384_HMAC : Nat := 0x00261
def PKCS11_CKM_SHA512 : Nat := 0x00270
def PKCS11_CKM_SHA512_HMAC : Nat := 0x00271
def PKCS11_CKM_GENERIC_SECRET_KEY_GEN : Nat := 0x00350
def PKCS11_CKM_EC_KEY_PAIR_GEN : Nat := 0x01040
def PKCS11_CKM_ECDSA : Nat := 0x01041
def PKCS11_CKM_ECDSA_SHA1 : Nat := 0x01042
def PKCS11_CKM_ECDSA_SHA224 : Nat := 0x01043
def PKCS11_CKM_ECDSA_SHA256 : Nat := 0x01044
def PKCS11_CKM_ECDSA_SHA384 : Nat := 0x01045
def PKCS11_CKM_ECDSA_SHA512 : Nat := 0x01046
def PKCS11_CKM_ECDH1_DERIVE : Nat := 0x01050
def PKCS11_CKM_ECDH1_COFACTOR_DERIVE : Nat := 0x01051
def PKCS11_CKM_ECMQV_DERIVE : Nat := 0x01052
def PKCS11_CKM_ECDH_AES_KEY_WRAP : Nat := 0x01053
def PKCS11_CKM_RSA_AES_KEY_WRAP : Nat := 0x01054
def PKCS11_CKM_AES_KEY_GEN : Nat := 0x01080
def PKCS11_CKM_AES_ECB : Nat := 0x01081
def PKCS11_CKM_AES_CBC : Nat := 0x01082
def PKCS11_CKM_AES_CBC_PAD : Nat := 0x01085
def PKCS11_CKM_AES_CTR : Nat := 0x01086
def PKCS11_CKM_AES_GCM : Nat := 0x01087
def PKCS11_CKM_AES_CCM : Nat := 0x01088
def PKCS11_CKM_AES_CTS : Nat := 0x01089
def PKCS11_CKM_AES_CMAC : Nat := 0x0108a
def PKCS11_CKM_AES_CMAC_GENERAL : Nat := 0x0108b
def PKCS11_CKM_AES_XCBC_MAC : Nat := 0x0108c
def PKCS11_CKM_AES_GMAC : Nat := 0x0108e
def PKCS11_CKM_AES_ECB_ENCRYPT_DATA : Nat := 0x01104
def PKCS11_CKM_AES_CBC_ENCRYPT_DATA : Nat := 0x01105
def PKCS11_PROCESSING_IMPORT : Nat := 0x80000000
def PKCS11_PROCESSING_COPY : Nat := 0x80000001
def PKCS11_CKM_UNDEFINED_ID : Nat := PKCS11_UNDEFINED_ID

/- Mechanism function flags (`PKCS11_CKFM_*`). -/
def PKCS11_CKFM_HW : Nat := 2 ^ 0
def PKCS11_CKFM_ENCRYPT : Nat := 2 ^ 8
def PKCS11_CKFM_DECRYPT : Nat := 2 ^ 9
def PKCS11_CKFM_DIGEST : Nat := 2 ^ 10
def PKCS11_CKFM_SIGN : Nat := 2 ^ 11
def PKCS11_CKFM_SIGN_RECOVER : Nat := 2 ^ 12
def PKCS11_CKFM_VERIFY : Nat := 2 ^ 13
def PKCS11_CKFM_VERIFY_RECOVER : Nat := 2 ^ 14
def PKCS11_CKFM_GENERATE : Nat := 2 ^ 15
def PKCS11_CKFM_GENERATE_KEY_PAIR : Nat := 2 ^ 16
def PKCS11_CKFM_WRAP : Nat := 2 ^ 17
def PKCS11_CKFM_UNWRAP : Nat := 2 ^ 18
def PKCS11_CKFM_DERIVE : Nat := 2 ^ 19

/-- Byte value of PKCS11_TRUE. -/
def PKCS11_TRUE : Nat := 1

/-- Byte size of CKA_ID attribute when generated locally. -/
def PKCS11_CKA_DEFAULT_SIZE : Nat := 16

/-! ## Attribute blobs

A serialized attribute list is modelled as the list of its entries,
each an attribute identifier together with its value bytes. -/

/-- One serialized attribute: identifier and value bytes. -/
abbrev Attr := Nat × List Nat

/-- A serialized attribute list (the byte-array header is implicit). -/
abbrev Blob := List Attr

/-- Modelled from the spec: `get_attribute_ptr` returns a view of the
value of the first entry carrying the requested identifier, or
`PKCS11_RV_NOT_FOUND` (here `none`). -/
def get_attribute_ptr : Blob → Nat → Option (List Nat)
  | [], _ => none
  | (i, v) :: t, attr_id =>
    if i = attr_id then some v else get_attribute_ptr t attr_id

/-- Modelled from the spec: `get_attribute` with an expected value size;
it fails (with `NOT_FOUND` or `BUFFER_TOO_SMALL`, both collapsed to
`none`) unless the attribute exists with exactly that size. -/
def get_attribute_checked (head : Blob) (attr_id size : Nat) : Option (List Nat) :=
  match get_attribute_ptr head attr_id with
  | some v => if v.length = size then some v else none
  | none => none

/-- Modelled from the spec: `get_bool` returns false when the attribute
is absent, else whether its (single) value byte is nonzero. -/
def get_bool (head : Blob) (attr_id : Nat) : Bool :=
  match get_attribute_ptr head attr_id with
  | some v => v.headD 0 != 0
  | none => false

/-- Modelled from the spec: `add_attribute` appends one entry at the
tail (`PKCS11_CKR_DEVICE_MEMORY` failures are outside the model). -/
def add_attribute (head : Blob) (attr_id : Nat) (data : List Nat) : Blob :=
  head ++ [(attr_id, data)]

/-- Little-endian 32-bit read of the first four value bytes. -/
def u32_of_bytes (v : List Nat) : Nat :=
  v.headD 0 + 256 * (v.drop 1).headD 0 + 65536 * (v.drop 2).headD 0 +
    16777216 * (v.drop 3).headD 0

/-- Little-endian 32-bit write as four bytes. -/
def bytes_of_u32 (x : Nat) : List Nat :=
  [x % 256, x / 256 % 256, x / 65536 % 256, x / 16777216 % 256]

/-- The class identifier of an object, `PKCS11_CKO_UNDEFINED_ID` when
absent or the wrong size (`get_class` helper of `attributes.h`). -/
def get_class (head : Blob) : Nat :=
  match get_attribute_checked head PKCS11_CKA_CLASS 4 with
  | some v => u32_of_bytes v
  | none => PKCS11_CKO_UNDEFINED_ID

/-- The key type of an object, `PKCS11_CKK_UNDEFINED_ID` when absent or
the wrong size (`get_type`/`get_key_type` helper of `attributes.h`). -/
def get_type (head : Blob) : Nat :=
  match get_attribute_checked head PKCS11_CKA_KEY_TYPE 4 with
  | some v => u32_of_bytes v
  | none => PKCS11_CKK_UNDEFINED_ID

/-! ## Mechanism catalog (`token_capabilities.c`) -/

/-- Composite flag sets used by the mechanism tables. -/
def CKFM_CIPHER : Nat := PKCS11_CKFM_ENCRYPT + PKCS11_CKFM_DECRYPT
def CKFM_WRAP_UNWRAP : Nat := PKCS11_CKFM_WRAP + PKCS11_CKFM_UNWRAP
def CKFM_CIPHER_WRAP : Nat := CKFM_CIPHER + CKFM_WRAP_UNWRAP
def CKFM_CIPHER_WRAP_DERIVE : Nat := CKFM_CIPHER_WRAP + PKCS11_CKFM_DERIVE
def CKFM_AUTH_NO_RECOVER : Nat := PKCS11_CKFM_SIGN + PKCS11_CKFM_VERIFY
def CKFM_AUTH_WITH_RECOVER : Nat :=
  PKCS11_CKFM_SIGN_RECOVER + PKCS11_CKFM_VERIFY_RECOVER

/-- One row of a mechanism table (`struct pkcs11_mechachism_modes`). -/
structure MechMode where
  id : Nat
  flags : Nat
  one_shot : Bool
deriving DecidableEq, Repr

/-- The PKCS#11-allowed operation flags per mechanism (`pkcs11_modes`). -/
def pkcs11_modes : List MechMode := [
  ⟨PKCS11_CKM_AES_ECB, CKFM_CIPHER_WRAP_DERIVE, false⟩,
  ⟨PKCS11_CKM_AES_CBC, CKFM_CIPHER_WRAP_DERIVE, false⟩,
  ⟨PKCS11_CKM_AES_CBC_PAD, CKFM_CIPHER_WRAP_DERIVE, false⟩,
  ⟨PKCS11_CKM_AES_CTS, CKFM_CIPHER_WRAP, false⟩,
  ⟨PKCS11_CKM_AES_CTR, CKFM_CIPHER_WRAP, false⟩,
  ⟨PKCS11_CKM_AES_GCM, CKFM_CIPHER_WRAP, false⟩,
  ⟨PKCS11_CKM_AES_CCM, CKFM_CIPHER_WRAP, false⟩,
  ⟨PKCS11_CKM_AES_GMAC, CKFM_AUTH_NO_RECOVER + PKCS11_CKFM_DERIVE, false⟩,
  ⟨PKCS11_CKM_AES_CMAC, CKFM_AUTH_NO_RECOVER, false⟩,
  ⟨PKCS11_CKM_AES_CMAC_GENERAL, CKFM_AUTH_NO_RECOVER, false⟩,
  ⟨PKCS11_CKM_AES_ECB_ENCRYPT_DATA, PKCS11_CKFM_DERIVE, false⟩,
  ⟨PKCS11_CKM_AES_CBC_ENCRYPT_DATA, PKCS11_CKFM_DERIVE, false⟩,
  ⟨PKCS11_CKM_AES_KEY_GEN, PKCS11_CKFM_GENERATE, false⟩,
  ⟨PKCS11_CKM_GENERIC_SECRET_KEY_GEN, PKCS11_CKFM_GENERATE, false⟩,
  ⟨PKCS11_CKM_AES_CMAC, CKFM_AUTH_NO_RECOVER, false⟩,
  ⟨PKCS11_CKM_MD5_HMAC, CKFM_AUTH_NO_RECOVER, false⟩,
  ⟨PKCS11_CKM_SHA_1_HMAC, CKFM_AUTH_NO_RECOVER, false⟩,
  ⟨PKCS11_CKM_SHA224_HMAC, CKFM_AUTH_NO_RECOVER, false⟩,
  ⟨PKCS11_CKM_SHA256_HMAC, CKFM_AUTH_NO_RECOVER, false⟩,
  ⟨PKCS11_CKM_SHA384_HMAC, CKFM_AUTH_NO_RECOVER, false⟩,
  ⟨PKCS11_CKM_SHA512_HMAC, CKFM_AUTH_NO_RECOVER, false⟩,
  ⟨PKCS11_CKM_AES_XCBC_MAC, CKFM_AUTH_NO_RECOVER, false⟩,
  ⟨PKCS11_CKM_EC_KEY_PAIR_GEN, PKCS11_CKFM_GENERATE_KEY_PAIR, false⟩,
  ⟨PKCS11_CKM_ECDSA, CKFM_AUTH_NO_RECOVER, true⟩,
  ⟨PKCS11_CKM_ECDSA_SHA1, CKFM_AUTH_NO_RECOVER, false⟩,
  ⟨PKCS11_CKM_ECDSA_SHA224, CKFM_AUTH_NO_RECOVER, false⟩,
  ⟨PKCS11_CKM_ECDSA_SHA256, CKFM_AUTH_NO_RECOVER, false⟩,
  ⟨PKCS11_CKM_ECDSA_SHA384, CKFM_AUTH_NO_RECOVER, false⟩,
  ⟨PKCS11_CKM_ECDSA_SHA512, CKFM_AUTH_NO_RECOVER, false⟩,
  ⟨PKCS11_CKM_ECDH1_DERIVE, PKCS11_CKFM_DERIVE, false⟩,
  ⟨PKCS11_CKM_ECDH1_COFACTOR_DERIVE, PKCS11_CKFM_DERIVE, false⟩,
  ⟨PKCS11_CKM_ECMQV_DERIVE, PKCS11_CKFM_DERIVE, false⟩,
  ⟨PKCS11_CKM_ECDH_AES_KEY_WRAP, CKFM_WRAP_UNWRAP, false⟩,
  ⟨PKCS11_CKM_RSA_PKCS_KEY_PAIR_GEN, PKCS11_CKFM_GENERATE_KEY_PAIR, false⟩,
  ⟨PKCS11_CKM_RSA_PKCS,
    CKFM_CIPHER_WRAP + CKFM_AUTH_NO_RECOVER + CKFM_AUTH_WITH_RECOVER, true⟩,
  ⟨PKCS11_CKM_RSA_PKCS_PSS, CKFM_AUTH_NO_RECOVER, true⟩,
  ⟨PKCS11_CKM_RSA_PKCS_OAEP, CKFM_CIPHER_WRAP, true⟩,
  ⟨PKCS11_CKM_RSA_9796,
    CKFM_WRAP_UNWRAP + CKFM_AUTH_NO_RECOVER + CKFM_AUTH_WITH_RECOVER, true⟩,
  ⟨PKCS11_CKM_RSA_X_509,
    CKFM_CIPHER_WRAP + CKFM_AUTH_NO_RECOVER + CKFM_AUTH_WITH_RECOVER, true⟩,
  ⟨PKCS11_CKM_SHA1_RSA_PKCS, CKFM_AUTH_NO_RECOVER, false⟩,
  ⟨PKCS11_CKM_SHA1_RSA_PKCS_PSS, CKFM_AUTH_NO_RECOVER, false⟩,
  ⟨PKCS11_CKM_SHA256_RSA_PKCS, CKFM_AUTH_NO_RECOVER, false⟩,
  ⟨PKCS11_CKM_SHA384_RSA_PKCS, CKFM_AUTH_NO_RECOVER, false⟩,
  ⟨PKCS11_CKM_SHA512_RSA_PKCS, CKFM_AUTH_NO_RECOVER, false⟩,
  ⟨PKCS11_CKM_SHA256_RSA_PKCS_PSS, CKFM_AUTH_NO_RECOVER, false⟩,
  ⟨PKCS11_CKM_SHA384_RSA_PKCS_PSS, CKFM_AUTH_NO_RECOVER, false⟩,
  ⟨PKCS11_CKM_SHA512_RSA_PKCS_PSS, CKFM_AUTH_NO_RECOVER, false⟩,
  ⟨PKCS11_CKM_SHA224_RSA_PKCS, CKFM_AUTH_NO_RECOVER, false⟩,
  ⟨PKCS11_CKM_SHA224_RSA_PKCS_PSS, CKFM_AUTH_NO_RECOVER, false⟩,
  ⟨PKCS11_CKM_RSA_AES_KEY_WRAP, CKFM_WRAP_UNWRAP, false⟩,
  ⟨PKCS11_CKM_MD5, PKCS11_CKFM_DIGEST, false⟩,
  ⟨PKCS11_CKM_SHA_1, PKCS11_CKFM_DIGEST, false⟩,
  ⟨PKCS11_CKM_SHA224, PKCS11_CKFM_DIGEST, false⟩,
  ⟨PKCS11_CKM_SHA256, PKCS11_CKFM_DIGEST, false⟩,
  ⟨PKCS11_CKM_SHA384, PKCS11_CKFM_DIGEST, false⟩,
  ⟨PKCS11_CKM_SHA512, PKCS11_CKFM_DIGEST, false⟩]

/-- The flags of the processings supported by the token (`token_mechanism`). -/
def token_mechanism : List MechMode := [
  ⟨PKCS11_CKM_AES_ECB, CKFM_CIPHER, false⟩,
  ⟨PKCS11_CKM_AES_CBC, CKFM_CIPHER, false⟩,
  ⟨PKCS11_CKM_AES_CBC_PAD, CKFM_CIPHER, false⟩,
  ⟨PKCS11_CKM_AES_CTR, CKFM_CIPHER, false⟩,
  ⟨PKCS11_CKM_AES_GCM, CKFM_CIPHER, false⟩,
  ⟨PKCS11_CKM_AES_CCM, CKFM_CIPHER, false⟩,
  ⟨PKCS11_CKM_AES_CTS, CKFM_CIPHER, false⟩,
  ⟨PKCS11_CKM_AES_GMAC, CKFM_AUTH_NO_RECOVER, false⟩,
  ⟨PKCS11_CKM_AES_CMAC, CKFM_AUTH_NO_RECOVER, false⟩,
  ⟨PKCS11_CKM_AES_CMAC_GENERAL, CKFM_AUTH_NO_RECOVER, false⟩,
  ⟨PKCS11_CKM_AES_ECB_ENCRYPT_DATA, PKCS11_CKFM_DERIVE, false⟩,
  ⟨PKCS11_CKM_AES_CBC_ENCRYPT_DATA, PKCS11_CKFM_DERIVE, false⟩,
  ⟨PKCS11_CKM_AES_KEY_GEN, PKCS11_CKFM_GENERATE, false⟩,
  ⟨PKCS11_CKM_GENERIC_SECRET_KEY_GEN, PKCS11_CKFM_GENERATE, false⟩,
  ⟨PKCS11_CKM_MD5_HMAC, CKFM_AUTH_NO_RECOVER, false⟩,
  ⟨PKCS11_CKM_SHA_1_HMAC, CKFM_AUTH_NO_RECOVER, false⟩,
  ⟨PKCS11_CKM_SHA224_HMAC, CKFM_AUTH_NO_RECOVER, false⟩,
  ⟨PKCS11_CKM_SHA256_HMAC, CKFM_AUTH_NO_RECOVER, false⟩,
  ⟨PKCS11_CKM_SHA384_HMAC, CKFM_AUTH_NO_RECOVER, false⟩,
  ⟨PKCS11_CKM_SHA512_HMAC, CKFM_AUTH_NO_RECOVER, false⟩,
  ⟨PKCS11_CKM_AES_XCBC_MAC, CKFM_AUTH_NO_RECOVER, false⟩,
  ⟨PKCS11_CKM_EC_KEY_PAIR_GEN, 0, false⟩,
  ⟨PKCS11_CKM_ECDSA, 0, false⟩,
  ⟨PKCS11_CKM_ECDSA_SHA1, 0, false⟩,
  ⟨PKCS11_CKM_ECDSA_SHA224, 0, false⟩,
  ⟨PKCS11_CKM_ECDSA_SHA256, 0, false⟩,
  ⟨PKCS11_CKM_ECDSA_SHA384, 0, false⟩,
  ⟨PKCS11_CKM_ECDSA_SHA512, 0, false⟩,
  ⟨PKCS11_CKM_ECDH1_DERIVE, 0, false⟩,
  ⟨PKCS11_CKM_ECDH1_COFACTOR_DERIVE, 0, false⟩,
  ⟨PKCS11_CKM_ECMQV_DERIVE, 0, false⟩,
  ⟨PKCS11_CKM_ECDH_AES_KEY_WRAP, 0, false⟩,
  ⟨PKCS11_CKM_RSA_PKCS_KEY_PAIR_GEN, PKCS11_CKFM_GENERATE_KEY_PAIR, false⟩,
  ⟨PKCS11_CKM_RSA_PKCS, CKFM_AUTH_NO_RECOVER, false⟩,
  ⟨PKCS11_CKM_RSA_9796, 0, false⟩,
  ⟨PKCS11_CKM_RSA_X_509, 0, false⟩,
  ⟨PKCS11_CKM_SHA1_RSA_PKCS, CKFM_AUTH_NO_RECOVER, false⟩,
  ⟨PKCS11_CKM_RSA_PKCS_OAEP, CKFM_CIPHER_WRAP, false⟩,
  ⟨PKCS11_CKM_SHA1_RSA_PKCS_PSS, CKFM_AUTH_NO_RECOVER, false⟩,
  ⟨PKCS11_CKM_SHA256_RSA_PKCS, CKFM_AUTH_NO_RECOVER, false⟩,
  ⟨PKCS11_CKM_SHA384_RSA_PKCS, CKFM_AUTH_NO_RECOVER, false⟩,
  ⟨PKCS11_CKM_SHA512_RSA_PKCS, CKFM_AUTH_NO_RECOVER, false⟩,
  ⟨PKCS11_CKM_SHA256_RSA_PKCS_PSS, CKFM_AUTH_NO_RECOVER, false⟩,
  ⟨PKCS11_CKM_SHA384_RSA_PKCS_PSS, CKFM_AUTH_NO_RECOVER, false⟩,
  ⟨PKCS11_CKM_SHA512_RSA_PKCS_PSS, CKFM_AUTH_NO_RECOVER, false⟩,
  ⟨PKCS11_CKM_SHA224_RSA_PKCS, CKFM_AUTH_NO_RECOVER, false⟩,
  ⟨PKCS11_CKM_SHA224_RSA_PKCS_PSS, CKFM_AUTH_NO_RECOVER, false⟩,
  ⟨PKCS11_CKM_UNDEFINED_ID, 0, false⟩]

/-- The PKCS#11-allowed flags recorded for a mechanism id in
`pkcs11_modes` (0 when the id is absent from the table). -/
def pkcs11_allowed_flags (id : Nat) : Nat :=
  match pkcs11_modes.find? (fun m => m.id == id) with
  | some m => m.flags
  | none => 0

/-- Whether a mechanism id appears in `pkcs11_modes` (`mechanism_is_valid`). -/
def mechanism_is_valid (id : Nat) : Bool :=
  (pkcs11_modes.find? (fun m => m.id == id)).isSome

/-- Token-supported function flags of a mechanism
(`mechanism_supported_flags`, 0 when the id is not in `token_mechanism`). -/
def mechanism_supported_flags (id : Nat) : Nat :=
  match token_mechanism.find? (fun m => m.id == id) with
  | some m => m.flags
  | none => 0

/-- Modelled from the spec: `one_shot_only(id)` consults the mechanism
catalog (the implementation of `mechanism_is_one_shot_only` is not part
of the source tree). -/
def mechanism_is_one_shot_only (id : Nat) : Bool :=
  match pkcs11_modes.find? (fun m => m.id == id) with
  | some m => m.one_shot
  | none => false

/-! ## Object builder (`pkcs11_attributes.c`) -/

/-- Outcome of a C routine returning a `uint32_t` status code: either
the returned code or a `TEE_Panic`. -/
inductive CRet where
  | ret (rc : Nat)
  | teePanic (code : Nat)
deriving DecidableEq, Repr

/-- Object processing functions (`enum processing_func`). -/
inductive ProcessingFunc where
  | DIGEST | GENERATE | GENERATE_PAIR | DERIVE | WRAP | UNWRAP
  | ENCRYPT | DECRYPT | SIGN | VERIFY | SIGN_RECOVER | VERIFY_RECOVER
  | IMPORT | COPY | MODIFY | DESTROY
deriving DecidableEq, Repr

/-- Processing steps (`enum processing_step`). -/
inductive ProcessingStep where
  | INIT | ONESHOT | UPDATE | FINAL
deriving DecidableEq, Repr

/-- Mechanism flag corresponding to a processing function
(`pkcs11_func2ckfm`). -/
def pkcs11_func2ckfm : ProcessingFunc → Nat
  | .DIGEST => PKCS11_CKFM_DIGEST
  | .GENERATE => PKCS11_CKFM_GENERATE
  | .GENERATE_PAIR => PKCS11_CKFM_GENERATE_KEY_PAIR
  | .DERIVE => PKCS11_CKFM_DERIVE
  | .WRAP => PKCS11_CKFM_WRAP
  | .UNWRAP => PKCS11_CKFM_UNWRAP
  | .ENCRYPT => PKCS11_CKFM_ENCRYPT
  | .DECRYPT => PKCS11_CKFM_DECRYPT
  | .SIGN => PKCS11_CKFM_SIGN
  | .VERIFY => PKCS11_CKFM_VERIFY
  | .SIGN_RECOVER => PKCS11_CKFM_SIGN_RECOVER
  | .VERIFY_RECOVER => PKCS11_CKFM_VERIFY_RECOVER
  | _ => 0

/-- Object default boolean attributes as per PKCS#11
(`pkcs11_object_default_boolprop`); `none` models the `TEE_Panic` taken
for attributes without a default. -/
def pkcs11_object_default_boolprop (attr_id : Nat) : Option Nat :=
  if attr_id ∈ [PKCS11_CKA_MODIFIABLE, PKCS11_CKA_COPYABLE,
                PKCS11_CKA_DESTROYABLE] then
    some 1
  else if attr_id ∈ [PKCS11_CKA_TOKEN, PKCS11_CKA_PRIVATE,
                     PKCS11_CKA_SENSITIVE, PKCS11_CKA_DERIVE,
                     PKCS11_CKA_ENCRYPT, PKCS11_CKA_DECRYPT,
                     PKCS11_CKA_SIGN, PKCS11_CKA_VERIFY,
                     PKCS11_CKA_SIGN_RECOVER, PKCS11_CKA_VERIFY_RECOVER,
                     PKCS11_CKA_WRAP, PKCS11_CKA_UNWRAP,
                     PKCS11_CKA_EXTRACTABLE, PKCS11_CKA_WRAP_WITH_TRUSTED,
                     PKCS11_CKA_ALWAYS_AUTHENTICATE, PKCS11_CKA_TRUSTED] then
    some 0
  else
    none

/-- Append a boolean attribute taken from the template when it is set
there with a nonzero byte, else the PKCS#11 default
(`pkcs11_import_object_boolprop`). -/
def pkcs11_import_object_boolprop (out templ : Blob) (attr_id : Nat) :
    Except CRet Blob :=
  match get_attribute_checked templ attr_id 1 with
  | some v =>
    if v.headD 0 ≠ 0 then .ok (add_attribute out attr_id v)
    else
      match pkcs11_object_default_boolprop attr_id with
      | some d => .ok (add_attribute out attr_id [d])
      | none => .error (.teePanic 0)
  | none =>
    match pkcs11_object_default_boolprop attr_id with
    | some d => .ok (add_attribute out attr_id [d])
    | none => .error (.teePanic 0)

/-- Apply `pkcs11_import_object_boolprop` over a list of boolean
properties (`set_mandatory_boolprops`). -/
def set_mandatory_boolprops (out temp : Blob) : List Nat → Except CRet Blob
  | [] => .ok out
  | a :: rest =>
    match pkcs11_import_object_boolprop out temp a with
    | .ok out2 => set_mandatory_boolprops out2 temp rest
    | .error e => .error e

/-- Copy each listed attribute from the template, adding an empty slot
when it is absent (`set_mandatory_attributes`). -/
def set_mandatory_attributes (out temp : Blob) : List Nat → Blob
  | [] => out
  | a :: rest =>
    set_mandatory_attributes
      (add_attribute out a ((get_attribute_ptr temp a).getD [])) temp rest

/-- Copy each listed attribute from the template when present
(`set_optional_attributes`). -/
def set_optional_attributes (out temp : Blob) : List Nat → Blob
  | [] => out
  | a :: rest =>
    match get_attribute_ptr temp a with
    | some v => set_optional_attributes (add_attribute out a v) temp rest
    | none => set_optional_attributes out temp rest

/-- Mandated boolean properties of any storage object. -/
def pkcs11_any_object_boolprops : List Nat :=
  [PKCS11_CKA_TOKEN, PKCS11_CKA_PRIVATE,
   PKCS11_CKA_MODIFIABLE, PKCS11_CKA_COPYABLE, PKCS11_CKA_DESTROYABLE]

/-- Optional attributes of any storage object. -/
def pkcs11_any_object_optional : List Nat := [PKCS11_CKA_LABEL]

/-- Optional attributes of raw data objects. -/
def pkcs11_raw_data_optional : List Nat :=
  [PKCS11_CKA_OBJECT_ID, PKCS11_CKA_APPLICATION, PKCS11_CKA_VALUE]

/-- Mandated boolean properties of any key object. -/
def pkcs11_any_key_boolprops : List Nat := [PKCS11_CKA_DERIVE]

/-- Optional attributes of any key object. -/
def pkcs11_any_key_optional : List Nat :=
  [PKCS11_CKA_ID, PKCS11_CKA_START_DATE, PKCS11_CKA_END_DATE,
   PKCS11_CKA_ALLOWED_MECHANISMS]

/-- Mandated boolean properties of symmetric keys. -/
def pkcs11_symm_key_boolprops : List Nat :=
  [PKCS11_CKA_ENCRYPT, PKCS11_CKA_DECRYPT,
   PKCS11_CKA_SIGN, PKCS11_CKA_VERIFY,
   PKCS11_CKA_WRAP, PKCS11_CKA_UNWRAP,
   PKCS11_CKA_SENSITIVE, PKCS11_CKA_EXTRACTABLE,
   PKCS11_CKA_WRAP_WITH_TRUSTED, PKCS11_CKA_TRUSTED]

/-- Optional attributes of symmetric keys. -/
def pkcs11_symm_key_optional : List Nat :=
  [PKCS11_CKA_WRAP_TEMPLATE, PKCS11_CKA_UNWRAP_TEMPLATE,
   PKCS11_CKA_DERIVE_TEMPLATE, PKCS11_CKA_VALUE, PKCS11_CKA_VALUE_LEN]

/-- Mandated boolean properties of public keys. -/
def pkcs11_public_key_boolprops : List Nat :=
  [PKCS11_CKA_ENCRYPT, PKCS11_CKA_VERIFY, PKCS11_CKA_VERIFY_RECOVER,
   PKCS11_CKA_WRAP, PKCS11_CKA_TRUSTED]

/-- Mandated attributes of public keys. -/
def pkcs11_public_key_mandated : List Nat := [PKCS11_CKA_SUBJECT]

/-- Optional attributes of public keys. -/
def pkcs11_public_key_optional : List Nat :=
  [PKCS11_CKA_WRAP_TEMPLATE, PKCS11_CKA_PUBLIC_KEY_INFO]

/-- Mandated boolean properties of private keys. -/
def pkcs11_private_key_boolprops : List Nat :=
  [PKCS11_CKA_DECRYPT, PKCS11_CKA_SIGN, PKCS11_CKA_SIGN_RECOVER,
   PKCS11_CKA_UNWRAP, PKCS11_CKA_SENSITIVE, PKCS11_CKA_EXTRACTABLE,
   PKCS11_CKA_WRAP_WITH_TRUSTED, PKCS11_CKA_ALWAYS_AUTHENTICATE]

/-- Mandated attributes of private keys. -/
def pkcs11_private_key_mandated : List Nat := [PKCS11_CKA_SUBJECT]

/-- Optional attributes of private keys. -/
def pkcs11_private_key_optional : List Nat :=
  [PKCS11_CKA_UNWRAP_TEMPLATE, PKCS11_CKA_PUBLIC_KEY_INFO]

/-- Mandated attributes of RSA public keys. -/
def pkcs11_rsa_public_key_mandated : List Nat := [PKCS11_CKA_MODULUS_BITS]

/-- Optional attributes of RSA public keys. -/
def pkcs11_rsa_public_key_optional : List Nat :=
  [PKCS11_CKA_MODULUS, PKCS11_CKA_PUBLIC_EXPONENT]

/-- Optional attributes of RSA private keys. -/
def pkcs11_rsa_private_key_optional : List Nat :=
  [PKCS11_CKA_MODULUS, PKCS11_CKA_PUBLIC_EXPONENT,
   PKCS11_CKA_PRIVATE_EXPONENT, PKCS11_CKA_PRIME_1, PKCS11_CKA_PRIME_2,
   PKCS11_CKA_EXPONENT_1, PKCS11_CKA_EXPONENT_2, PKCS11_CKA_COEFFICIENT]

/-- Mandated attributes of EC public keys. -/
def pkcs11_ec_public_key_mandated : List Nat := [PKCS11_CKA_EC_PARAMS]

/-- Optional attributes of EC public keys. -/
def pkcs11_ec_public_key_optional : List Nat :=
  [PKCS11_CKA_EC_POINT, PKCS11_CKA_EC_POINT_X, PKCS11_CKA_EC_POINT_Y]

/-- Mandated attributes of EC private keys. -/
def pkcs11_ec_private_key_mandated : List Nat := [PKCS11_CKA_EC_PARAMS]

/-- Optional attributes of EC private keys. -/
def pkcs11_ec_private_key_optional : List Nat :=
  [PKCS11_CKA_VALUE, PKCS11_CKA_EC_POINT_X, PKCS11_CKA_EC_POINT_Y]

/-- Storage-object part of the builder (`create_storage_attributes`). -/
def create_storage_attributes (temp : Blob) : Except CRet Blob :=
  let cls := get_class temp
  if cls = PKCS11_CKO_UNDEFINED_ID then
    .error (.ret PKCS11_CKR_TEMPLATE_INCONSISTENT)
  else
    match set_mandatory_boolprops
        (add_attribute [] PKCS11_CKA_CLASS (bytes_of_u32 cls)) temp
        pkcs11_any_object_boolprops with
    | .ok out => .ok (set_optional_attributes out temp pkcs11_any_object_optional)
    | .error e => .error e

/-- Generic-key part of the builder (`create_genkey_attributes`). -/
def create_genkey_attributes (temp : Blob) : Except CRet Blob :=
  match create_storage_attributes temp with
  | .error e => .error e
  | .ok out =>
    let ty := get_type temp
    if ty = PKCS11_CKK_UNDEFINED_ID then
      .error (.ret PKCS11_CKR_TEMPLATE_INCONSISTENT)
    else
      match set_mandatory_boolprops
          (add_attribute out PKCS11_CKA_KEY_TYPE (bytes_of_u32 ty)) temp
          pkcs11_any_key_boolprops with
      | .ok out2 => .ok (set_optional_attributes out2 temp pkcs11_any_key_optional)
      | .error e => .error e

/-- Symmetric-key builder (`create_symm_key_attributes`). -/
def create_symm_key_attributes (temp : Blob) : Except CRet Blob :=
  match create_genkey_attributes temp with
  | .error e => .error e
  | .ok out =>
    if get_type out ∈ [PKCS11_CKK_GENERIC_SECRET, PKCS11_CKK_AES,
                       PKCS11_CKK_MD5_HMAC, PKCS11_CKK_SHA_1_HMAC,
                       PKCS11_CKK_SHA256_HMAC, PKCS11_CKK_SHA384_HMAC,
                       PKCS11_CKK_SHA512_HMAC, PKCS11_CKK_SHA224_HMAC] then
      match set_mandatory_boolprops out temp pkcs11_symm_key_boolprops with
      | .ok out2 => .ok (set_optional_attributes out2 temp pkcs11_symm_key_optional)
      | .error e => .error e
    else
      .error (.ret PKCS11_CKR_TEMPLATE_INCONSISTENT)

/-- Data-object builder (`create_data_attributes`). -/
def create_data_attributes (temp : Blob) : Except CRet Blob :=
  match create_storage_attributes temp with
  | .error e => .error e
  | .ok out => .ok (set_optional_attributes out temp pkcs11_raw_data_optional)

/-- Public-key builder (`create_pub_key_attributes`). -/
def create_pub_key_attributes (temp : Blob) : Except CRet Blob :=
  match create_genkey_attributes temp with
  | .error e => .error e
  | .ok out =>
    match set_mandatory_boolprops out temp pkcs11_public_key_boolprops with
    | .error e => .error e
    | .ok out2 =>
      let out3 := set_mandatory_attributes out2 temp pkcs11_public_key_mandated
      let out4 := set_optional_attributes out3 temp pkcs11_public_key_optional
      if get_type out4 = PKCS11_CKK_RSA then
        .ok (set_optional_attributes
              (set_mandatory_attributes out4 temp pkcs11_rsa_public_key_mandated)
              temp pkcs11_rsa_public_key_optional)
      else if get_type out4 = PKCS11_CKK_EC then
        .ok (set_optional_attributes
              (set_mandatory_attributes out4 temp pkcs11_ec_public_key_mandated)
              temp pkcs11_ec_public_key_optional)
      else
        .error (.ret PKCS11_CKR_TEMPLATE_INCONSISTENT)

/-- Private-key builder (`create_priv_key_attributes`). -/
def create_priv_key_attributes (temp : Blob) : Except CRet Blob :=
  match create_genkey_attributes temp with
  | .error e => .error e
  | .ok out =>
    match set_mandatory_boolprops out temp pkcs11_private_key_boolprops with
    | .error e => .error e
    | .ok out2 =>
      let out3 := set_mandatory_attributes out2 temp pkcs11_private_key_mandated
      let out4 := set_optional_attributes out3 temp pkcs11_private_key_optional
      if get_type out4 = PKCS11_CKK_RSA then
        .ok (set_optional_attributes out4 temp pkcs11_rsa_private_key_optional)
      else if get_type out4 = PKCS11_CKK_EC then
        .ok (set_optional_attributes
              (set_mandatory_attributes out4 temp pkcs11_ec_private_key_mandated)
              temp pkcs11_ec_private_key_optional)
      else
        .error (.ret PKCS11_CKR_TEMPLATE_INCONSISTENT)

/-- Modelled from the spec: symmetric key types (the helper
`key_type_is_symm_key` is not part of the source tree; §3 lists the
SECRET_KEY-compatible types). -/
def key_type_is_symm_key (ty : Nat) : Bool :=
  decide (ty ∈ [PKCS11_CKK_GENERIC_SECRET, PKCS11_CKK_AES,
                PKCS11_CKK_MD5_HMAC, PKCS11_CKK_SHA_1_HMAC,
                PKCS11_CKK_SHA224_HMAC, PKCS11_CKK_SHA256_HMAC,
                PKCS11_CKK_SHA384_HMAC, PKCS11_CKK_SHA512_HMAC])

/-- Modelled from the spec: asymmetric key types (the helper
`key_type_is_asymm_key` is not part of the source tree; §3 lists the
PUBLIC/PRIVATE_KEY-compatible types). -/
def key_type_is_asymm_key (ty : Nat) : Bool :=
  decide (ty ∈ [PKCS11_CKK_RSA, PKCS11_CKK_DSA, PKCS11_CKK_DH, PKCS11_CKK_EC])

/-- Class/key-type consistency of a sanitized template
(`sanitize_consistent_class_and_type`). -/
def sanitize_consistent_class_and_type (attrs : Blob) : Bool :=
  let cls := get_class attrs
  if cls = PKCS11_CKO_DATA then true
  else if cls = PKCS11_CKO_SECRET_KEY then key_type_is_symm_key (get_type attrs)
  else if cls = PKCS11_CKO_MECHANISM then mechanism_is_valid (get_type attrs)
  else if cls = PKCS11_CKO_PUBLIC_KEY ∨ cls = PKCS11_CKO_PRIVATE_KEY then
    key_type_is_asymm_key (get_type attrs)
  else false

/-- Attribute list creation for a new object
(`create_attributes_from_template`). The initial
`sanitize_client_object` stage parses raw client bytes and is modelled
separately; this function takes the already-sanitized template and
covers the remainder of the C function, so it is defined on a superset
of the C function's reachable intermediate states. -/
def create_attributes_from_template (temp parent : Blob)
    (func : ProcessingFunc) : Except CRet Blob :=
  if sanitize_consistent_class_and_type temp = false then
    .error (.ret PKCS11_CKR_TEMPLATE_INCONSISTENT)
  else
    let built : Except CRet Blob :=
      if get_class temp = PKCS11_CKO_DATA then create_data_attributes temp
      else if get_class temp = PKCS11_CKO_SECRET_KEY then
        create_symm_key_attributes temp
      else if get_class temp = PKCS11_CKO_PUBLIC_KEY then
        create_pub_key_attributes temp
      else if get_class temp = PKCS11_CKO_PRIVATE_KEY then
        create_priv_key_attributes temp
      else .error (.ret PKCS11_CKR_TEMPLATE_INCONSISTENT)
    match built with
    | .error e => .error e
    | .ok attrs0 =>
      let bLocal : Nat :=
        match func with
        | .GENERATE | .GENERATE_PAIR => 1
        | .COPY => if get_bool parent PKCS11_CKA_LOCAL then 1 else 0
        | _ => 0
      let attrs := add_attribute attrs0 PKCS11_CKA_LOCAL [bLocal]
      if get_class attrs = PKCS11_CKO_SECRET_KEY ∨
         get_class attrs = PKCS11_CKO_PRIVATE_KEY ∨
         get_class attrs = PKCS11_CKO_PUBLIC_KEY then
        let always_sensitive : Nat :=
          match func with
          | .DERIVE | .COPY =>
            if get_bool parent PKCS11_CKA_ALWAYS_SENSITIVE &&
               get_bool attrs PKCS11_CKA_SENSITIVE then 1 else 0
          | .GENERATE =>
            if get_bool attrs PKCS11_CKA_SENSITIVE then 1 else 0
          | _ => 0
        let never_extract : Nat :=
          match func with
          | .DERIVE | .COPY =>
            if get_bool parent PKCS11_CKA_NEVER_EXTRACTABLE &&
               !(get_bool attrs PKCS11_CKA_EXTRACTABLE) then 1 else 0
          | .GENERATE =>
            if !(get_bool attrs PKCS11_CKA_EXTRACTABLE) then 1 else 0
          | _ => 0
        .ok (add_attribute
              (add_attribute attrs PKCS11_CKA_ALWAYS_SENSITIVE [always_sensitive])
              PKCS11_CKA_NEVER_EXTRACTABLE [never_extract])
      else
        .ok attrs

/-! ## Policy engine (`pkcs11_attributes.c`) -/

/-- State of the active processing of a session
(fields of `struct active_processing` read by the policy engine;
the full structure is not part of the source tree). -/
structure ActiveProcessing where
  always_authen : Bool
  relogged : Bool
  updated : Bool
deriving DecidableEq, Repr

/-- Modelled from the spec: the session state read by the policy engine
(`struct pkcs11_session` and the `pkcs11_session_is_*` helpers are not
part of the source tree; §4.5 and the glossary describe public,
security-officer and read-write sessions). -/
structure Session where
  processing : ActiveProcessing
  public_session : Bool
  so_session : Bool
  read_write : Bool
deriving DecidableEq, Repr

/-- Per-step mechanism/function gate (`check_mechanism_against_processing`). -/
def check_mechanism_against_processing (session : Session)
    (mechanism_type : Nat) (func : ProcessingFunc)
    (step : ProcessingStep) : CRet :=
  match step with
  | .INIT =>
    match func with
    | .IMPORT | .COPY | .MODIFY | .DESTROY => .ret PKCS11_CKR_OK
    | _ =>
      if mechanism_supported_flags mechanism_type &&&
         pkcs11_func2ckfm func ≠ 0 then
        .ret PKCS11_CKR_OK
      else
        .ret PKCS11_CKR_KEY_FUNCTION_NOT_PERMITTED
  | .ONESHOT | .UPDATE =>
    if session.processing.always_authen && !session.processing.relogged then
      .ret PKCS11_CKR_USER_NOT_LOGGED_IN
    else if !session.processing.updated then
      .ret PKCS11_CKR_OK
    else if !(mechanism_is_one_shot_only mechanism_type) then
      .ret PKCS11_CKR_OK
    else
      .ret PKCS11_CKR_KEY_FUNCTION_NOT_PERMITTED
  | .FINAL =>
    if session.processing.always_authen && !session.processing.relogged then
      .ret PKCS11_CKR_USER_NOT_LOGGED_IN
    else
      .ret PKCS11_CKR_OK

/-- Access check of an object against the token authentication state
(`check_access_attrs_against_token`). -/
def check_access_attrs_against_token (session : Session) (head : Blob) : CRet :=
  let cls := get_class head
  if cls = PKCS11_CKO_SECRET_KEY ∨ cls = PKCS11_CKO_PUBLIC_KEY ∨
     cls = PKCS11_CKO_DATA then
    if !(get_bool head PKCS11_CKA_PRIVATE) then
      .ret PKCS11_CKR_OK
    else if session.public_session then
      .ret PKCS11_CKR_KEY_FUNCTION_NOT_PERMITTED
    else
      .ret PKCS11_CKR_OK
  else if cls = PKCS11_CKO_PRIVATE_KEY then
    if session.public_session then
      .ret PKCS11_CKR_KEY_FUNCTION_NOT_PERMITTED
    else
      .ret PKCS11_CKR_OK
  else
    .ret PKCS11_CKR_KEY_FUNCTION_NOT_PERMITTED

/-- New-secret versus creating mechanism check
(`check_created_attrs_against_processing`). Mechanisms outside the
supported creation set hit the `TEE_Panic(proc_id)` default branch. -/
def check_created_attrs_against_processing (proc_id : Nat) (head : Blob) :
    CRet :=
  if proc_id = PKCS11_PROCESSING_IMPORT ∨ proc_id = PKCS11_CKM_ECDH1_DERIVE ∨
     proc_id = PKCS11_CKM_ECDH1_COFACTOR_DERIVE ∨
     proc_id = PKCS11_CKM_DH_PKCS_DERIVE then
    match get_attribute_ptr head PKCS11_CKA_LOCAL with
    | none => .ret PKCS11_CKR_TEMPLATE_INCONSISTENT
    | some v =>
      if v.headD 0 ≠ 0 then .ret PKCS11_CKR_TEMPLATE_INCONSISTENT
      else if proc_id = PKCS11_CKM_ECDH1_DERIVE ∨
              proc_id = PKCS11_CKM_ECDH1_COFACTOR_DERIVE ∨
              proc_id = PKCS11_CKM_DH_PKCS_DERIVE then
        if get_class head ≠ PKCS11_CKO_SECRET_KEY then
          .ret PKCS11_CKR_TEMPLATE_INCONSISTENT
        else .ret PKCS11_CKR_OK
      else .ret PKCS11_CKR_OK
  else if proc_id = PKCS11_CKM_GENERIC_SECRET_KEY_GEN ∨
          proc_id = PKCS11_CKM_AES_KEY_GEN ∨
          proc_id = PKCS11_CKM_EC_KEY_PAIR_GEN ∨
          proc_id = PKCS11_CKM_RSA_PKCS_KEY_PAIR_GEN then
    match get_attribute_ptr head PKCS11_CKA_LOCAL with
    | none => .ret PKCS11_CKR_TEMPLATE_INCONSISTENT
    | some v =>
      if v.headD 0 = 0 then .ret PKCS11_CKR_TEMPLATE_INCONSISTENT
      else if proc_id = PKCS11_CKM_GENERIC_SECRET_KEY_GEN then
        if get_type head ≠ PKCS11_CKK_GENERIC_SECRET then
          .ret PKCS11_CKR_TEMPLATE_INCONSISTENT
        else .ret PKCS11_CKR_OK
      else if proc_id = PKCS11_CKM_AES_KEY_GEN then
        if get_type head ≠ PKCS11_CKK_AES then
          .ret PKCS11_CKR_TEMPLATE_INCONSISTENT
        else .ret PKCS11_CKR_OK
      else if proc_id = PKCS11_CKM_EC_KEY_PAIR_GEN then
        if get_type head ≠ PKCS11_CKK_EC then
          .ret PKCS11_CKR_TEMPLATE_INCONSISTENT
        else .ret PKCS11_CKR_OK
      else
        if get_type head ≠ PKCS11_CKK_RSA then
          .ret PKCS11_CKR_TEMPLATE_INCONSISTENT
        else .ret PKCS11_CKR_OK
  else
    .teePanic proc_id

/-- Little-endian 32-bit words packed in a byte array, as read by
`parent_key_complies_allowed_processings` (trailing bytes that do not
fill a word are ignored, as `size / sizeof(uint32_t)` does). -/
def u32_list_of_bytes : List Nat → List Nat
  | b0 :: b1 :: b2 :: b3 :: rest =>
    u32_of_bytes [b0, b1, b2, b3] :: u32_list_of_bytes rest
  | _ => []

/-- Check of the target mechanism against the parent key's
`ALLOWED_MECHANISMS` list (`parent_key_complies_allowed_processings`). -/
def parent_key_complies_allowed_processings (proc_id : Nat) (head : Blob) :
    Bool :=
  match get_attribute_ptr head PKCS11_CKA_ALLOWED_MECHANISMS with
  | none => true
  | some bytes => decide (proc_id ∈ u32_list_of_bytes bytes)

/-- AES processing mechanisms accepted for a SECRET_KEY/AES parent. -/
def aes_processing_mechanisms : List Nat :=
  [PKCS11_CKM_AES_ECB, PKCS11_CKM_AES_CBC, PKCS11_CKM_AES_CBC_PAD,
   PKCS11_CKM_AES_CTS, PKCS11_CKM_AES_CTR, PKCS11_CKM_AES_GCM,
   PKCS11_CKM_AES_CCM, PKCS11_CKM_AES_CMAC, PKCS11_CKM_AES_CMAC_GENERAL,
   PKCS11_CKM_AES_XCBC_MAC]

/-- HMAC processing mechanisms and their dedicated key types. -/
def hmac_processing_mechanisms : List (Nat × Nat) :=
  [(PKCS11_CKM_MD5_HMAC, PKCS11_CKK_MD5_HMAC),
   (PKCS11_CKM_SHA_1_HMAC, PKCS11_CKK_SHA_1_HMAC),
   (PKCS11_CKM_SHA224_HMAC, PKCS11_CKK_SHA224_HMAC),
   (PKCS11_CKM_SHA256_HMAC, PKCS11_CKK_SHA256_HMAC),
   (PKCS11_CKM_SHA384_HMAC, PKCS11_CKK_SHA384_HMAC),
   (PKCS11_CKM_SHA512_HMAC, PKCS11_CKK_SHA512_HMAC)]

/-- EC processing mechanisms requiring an EC public/private parent. -/
def ec_processing_mechanisms : List Nat :=
  [PKCS11_CKM_ECDSA, PKCS11_CKM_ECDSA_SHA1, PKCS11_CKM_ECDSA_SHA224,
   PKCS11_CKM_ECDSA_SHA256, PKCS11_CKM_ECDSA_SHA384, PKCS11_CKM_ECDSA_SHA512,
   PKCS11_CKM_ECDH1_DERIVE, PKCS11_CKM_ECDH1_COFACTOR_DERIVE,
   PKCS11_CKM_ECMQV_DERIVE, PKCS11_CKM_ECDH_AES_KEY_WRAP]

/-- RSA processing mechanisms requiring an RSA public/private parent. -/
def rsa_processing_mechanisms : List Nat :=
  [PKCS11_CKM_RSA_PKCS, PKCS11_CKM_RSA_9796, PKCS11_CKM_RSA_X_509,
   PKCS11_CKM_SHA1_RSA_PKCS, PKCS11_CKM_RSA_PKCS_OAEP,
   PKCS11_CKM_SHA1_RSA_PKCS_PSS, PKCS11_CKM_SHA256_RSA_PKCS,
   PKCS11_CKM_SHA384_RSA_PKCS, PKCS11_CKM_SHA512_RSA_PKCS,
   PKCS11_CKM_SHA256_RSA_PKCS_PSS, PKCS11_CKM_SHA384_RSA_PKCS_PSS,
   PKCS11_CKM_SHA512_RSA_PKCS_PSS, PKCS11_CKM_SHA224_RSA_PKCS,
   PKCS11_CKM_SHA224_RSA_PKCS_PSS, PKCS11_CKM_RSA_AES_KEY_WRAP]

/-- Family part of the parent check: the parent class/type must match
the mechanism family (body of the `switch (proc_id)` of
`check_parent_attrs_against_processing`). -/
def check_parent_family (proc_id : Nat) (head : Blob) : CRet :=
  let key_class := get_class head
  let key_type := get_type head
  if proc_id ∈ aes_processing_mechanisms then
    if key_class = PKCS11_CKO_SECRET_KEY ∧ key_type = PKCS11_CKK_AES then
      .ret PKCS11_CKR_OK
    else .ret PKCS11_CKR_KEY_FUNCTION_NOT_PERMITTED
  else
    match hmac_processing_mechanisms.find? (fun e => e.1 == proc_id) with
    | some entry =>
      if key_class ≠ PKCS11_CKO_SECRET_KEY then
        .ret PKCS11_CKR_KEY_FUNCTION_NOT_PERMITTED
      else if key_type = PKCS11_CKK_GENERIC_SECRET then .ret PKCS11_CKR_OK
      else if key_type = entry.2 then .ret PKCS11_CKR_OK
      else .ret PKCS11_CKR_KEY_FUNCTION_NOT_PERMITTED
    | none =>
      if proc_id ∈ ec_processing_mechanisms then
        if key_type ≠ PKCS11_CKK_EC ∨
           (key_class ≠ PKCS11_CKO_PUBLIC_KEY ∧
            key_class ≠ PKCS11_CKO_PRIVATE_KEY) then
          .ret PKCS11_CKR_KEY_FUNCTION_NOT_PERMITTED
        else .ret PKCS11_CKR_OK
      else if proc_id ∈ rsa_processing_mechanisms then
        if key_type ≠ PKCS11_CKK_RSA ∨
           (key_class ≠ PKCS11_CKO_PUBLIC_KEY ∧
            key_class ≠ PKCS11_CKO_PRIVATE_KEY) then
          .ret PKCS11_CKR_KEY_FUNCTION_NOT_PERMITTED
        else .ret PKCS11_CKR_OK
      else
        .ret PKCS11_CKR_MECHANISM_INVALID

/-- Parent-key versus target processing check
(`check_parent_attrs_against_processing`). -/
def check_parent_attrs_against_processing (proc_id : Nat)
    (func : ProcessingFunc) (head : Blob) : CRet :=
  if func = .ENCRYPT ∧ !(get_bool head PKCS11_CKA_ENCRYPT) then
    .ret PKCS11_CKR_KEY_FUNCTION_NOT_PERMITTED
  else if func = .DECRYPT ∧ !(get_bool head PKCS11_CKA_DECRYPT) then
    .ret PKCS11_CKR_KEY_FUNCTION_NOT_PERMITTED
  else if func = .SIGN ∧ !(get_bool head PKCS11_CKA_SIGN) then
    .ret PKCS11_CKR_KEY_FUNCTION_NOT_PERMITTED
  else if func = .VERIFY ∧ !(get_bool head PKCS11_CKA_VERIFY) then
    .ret PKCS11_CKR_KEY_FUNCTION_NOT_PERMITTED
  else if func = .WRAP ∧ !(get_bool head PKCS11_CKA_WRAP) then
    .ret PKCS11_CKR_KEY_FUNCTION_NOT_PERMITTED
  else if func = .UNWRAP ∧ !(get_bool head PKCS11_CKA_UNWRAP) then
    .ret PKCS11_CKR_KEY_FUNCTION_NOT_PERMITTED
  else if func = .DERIVE ∧ !(get_bool head PKCS11_CKA_DERIVE) then
    .ret PKCS11_CKR_KEY_FUNCTION_NOT_PERMITTED
  else
    match check_parent_family proc_id head with
    | .ret rc =>
      if rc ≠ PKCS11_CKR_OK then .ret rc
      else if !(parent_key_complies_allowed_processings proc_id head) then
        .ret PKCS11_CKR_KEY_FUNCTION_NOT_PERMITTED
      else .ret PKCS11_CKR_OK
    | e => e

/-- Add a CKA_ID attribute to an object or paired objects when missing
(`add_missing_attribute_id`); `rng` models the byte stream of
`TEE_GenerateRandom`, consulted for `PKCS11_CKA_DEFAULT_SIZE` bytes only
when both objects lack an ID. -/
def add_missing_attribute_id (rng : Nat → Nat) (attrs1 : Blob)
    (attrs2 : Option Blob) : Blob × Option Blob :=
  let id1 := get_attribute_ptr attrs1 PKCS11_CKA_ID
  let fresh := (List.range PKCS11_CKA_DEFAULT_SIZE).map rng
  match attrs2 with
  | some a2 =>
    match id1, get_attribute_ptr a2 PKCS11_CKA_ID with
    | some _, some _ => (attrs1, some a2)
    | some v1, none => (attrs1, some (add_attribute a2 PKCS11_CKA_ID v1))
    | none, some v2 => (add_attribute attrs1 PKCS11_CKA_ID v2, some a2)
    | none, none =>
      (add_attribute attrs1 PKCS11_CKA_ID fresh,
       some (add_attribute a2 PKCS11_CKA_ID fresh))
  | none =>
    match id1 with
    | some _ => (attrs1, none)
    | none => (add_attribute attrs1 PKCS11_CKA_ID fresh, none)

/-! ## Template sanitizer (`sanitize_object.c`)

The sanitizer walks the raw client template: a `{attrs_size,
attrs_count}` header followed by `{id, size, value}` entries, where the
value of an indirect attribute is itself a serialized template. The
input is modelled as the list of its entries with the nesting made
explicit; the byte image of each value is recovered by `cliValBytes`,
which is what the C reads through `TEE_MemMove`. -/

/-- Value of one raw client attribute: either plain bytes or a nested
serialized template. -/
inductive CliVal where
  | raw (bytes : List Nat)
  | tmpl (entries : List (Nat × CliVal))

/-- One raw client template entry. -/
abbrev CliEntry := Nat × CliVal

mutual
/-- Byte image of a raw attribute value as laid out in the client
buffer (a nested template is its serialized form). -/
def cliValBytes : CliVal → List Nat
  | .raw bytes => bytes
  | .tmpl entries =>
    bytes_of_u32 (cliEntriesSize entries) ++ bytes_of_u32 entries.length ++
      cliEntriesBytes entries

/-- Byte image of serialized entries. -/
def cliEntriesBytes : List (Nat × CliVal) → List Nat
  | [] => []
  | (i, v) :: rest =>
    bytes_of_u32 i ++ bytes_of_u32 (cliValBytes v).length ++ cliValBytes v ++
      cliEntriesBytes rest

/-- Total byte size of serialized entries. -/
def cliEntriesSize : List (Nat × CliVal) → Nat
  | [] => 0
  | (_, v) :: rest => 8 + (cliValBytes v).length + cliEntriesSize rest
end

/-- Byte size of a raw attribute value (`cli_ref.size`). -/
def cliValSize (v : CliVal) : Nat := (cliValBytes v).length

/-- First byte of a raw attribute value. -/
def cliValHead (v : CliVal) : Nat := (cliValBytes v).headD 0

/-- Little-endian 32-bit read of a raw attribute value. -/
def cliValU32 (v : CliVal) : Nat := u32_of_bytes (cliValBytes v)

/-- Modelled from the spec: status sentinels of the secure key services
internal ABI (`sks_internal_abi.h` is not part of the source tree; §6.3
fixes `NOT_FOUND`, the others only need to be distinct codes). -/
def PKCS11_ERROR : Nat := 0x80000002
def PKCS11_BAD_PARAM : Nat := 0x80000003
def PKCS11_FAILED : Nat := 0x80000004

/-- Base identifier of boolean properties in sanitized blobs
(`PKCS11_BOOLPROPS_BASE` in `attributes.h`). -/
def PKCS11_BOOLPROPS_BASE : Nat := 0

/-- Number of boolean property bits (`PKCS11_BOOLPROPS_MAX_COUNT` in
`attributes.h`; the sanitizer's shift bound). -/
def PKCS11_MAX_BOOLPROP_SHIFT : Nat := 64

/-- Modelled from the spec: `pkcs11_attr_is_class` returns the expected
value size (4) for the object-class attribute and 0 otherwise (the
helper is not part of the source tree). -/
def pkcs11_attr_is_class (id : Nat) : Nat :=
  if id = PKCS11_CKA_CLASS then 4 else 0

/-- Modelled from the spec: `pkcs11_attr_is_type` returns the expected
value size (4) for the type-in-class attribute (pass A of §4.2 extracts
KEY_TYPE) and 0 otherwise (the helper is not part of the source tree). -/
def pkcs11_attr_is_type (id : Nat) : Nat :=
  if id = PKCS11_CKA_KEY_TYPE then 4 else 0

/-- Boolean property attributes and their bit positions, in the order
of `enum boolprop_attr` of `attributes.h`. -/
def boolprop_shift_table : List (Nat × Nat) :=
  [(PKCS11_CKA_TOKEN, 0), (PKCS11_CKA_PRIVATE, 1),
   (PKCS11_CKA_TRUSTED, 2), (PKCS11_CKA_SENSITIVE, 3),
   (PKCS11_CKA_ENCRYPT, 4), (PKCS11_CKA_DECRYPT, 5),
   (PKCS11_CKA_WRAP, 6), (PKCS11_CKA_UNWRAP, 7),
   (PKCS11_CKA_SIGN, 8), (PKCS11_CKA_SIGN_RECOVER, 9),
   (PKCS11_CKA_VERIFY, 10), (PKCS11_CKA_VERIFY_RECOVER, 11),
   (PKCS11_CKA_DERIVE, 12), (PKCS11_CKA_EXTRACTABLE, 13),
   (PKCS11_CKA_LOCAL, 14), (PKCS11_CKA_NEVER_EXTRACTABLE, 15),
   (PKCS11_CKA_ALWAYS_SENSITIVE, 16), (PKCS11_CKA_MODIFIABLE, 17),
   (PKCS11_CKA_COPYABLE, 18), (PKCS11_CKA_DESTROYABLE, 19),
   (PKCS11_CKA_ALWAYS_AUTHENTICATE, 20), (PKCS11_CKA_WRAP_WITH_TRUSTED, 21)]

/-- Modelled from the spec: `pkcs11_attr2boolprop_shift` maps a boolean
property attribute to its bit position, `none` (the C returns -1) for
any other identifier (the helper is not part of the source tree; the
positions come from `enum boolprop_attr` of `attributes.h`). -/
def pkcs11_attr2boolprop_shift (id : Nat) : Option Nat :=
  (boolprop_shift_table.find? (fun e => e.1 == id)).map Prod.snd

/-- Modelled from the spec: the key classes (the helper
`pkcs11_attr_class_is_key` is not part of the source tree; §3 gives the
key classes SECRET_KEY, PUBLIC_KEY, PRIVATE_KEY). -/
def pkcs11_attr_class_is_key (cls : Nat) : Bool :=
  decide (cls ∈ [PKCS11_CKO_SECRET_KEY, PKCS11_CKO_PRIVATE_KEY,
                 PKCS11_CKO_PUBLIC_KEY])

/-- U32-valued attribute identifiers of the catalog used by
`valid_pkcs11_attribute_id`. -/
def pkcs11_u32_attribute_ids : List Nat :=
  [PKCS11_CKA_CLASS, PKCS11_CKA_KEY_TYPE, PKCS11_CKA_MODULUS_BITS,
   PKCS11_CKA_VALUE_LEN]

/-- Variable-length attribute identifiers of the catalog used by
`valid_pkcs11_attribute_id`. -/
def pkcs11_variable_attribute_ids : List Nat :=
  [PKCS11_CKA_LABEL, PKCS11_CKA_APPLICATION, PKCS11_CKA_VALUE,
   PKCS11_CKA_OBJECT_ID, PKCS11_CKA_SUBJECT, PKCS11_CKA_ID,
   PKCS11_CKA_START_DATE, PKCS11_CKA_END_DATE, PKCS11_CKA_MODULUS,
   PKCS11_CKA_PUBLIC_EXPONENT, PKCS11_CKA_PRIVATE_EXPONENT,
   PKCS11_CKA_PRIME_1, PKCS11_CKA_PRIME_2, PKCS11_CKA_EXPONENT_1,
   PKCS11_CKA_EXPONENT_2, PKCS11_CKA_COEFFICIENT,
   PKCS11_CKA_PUBLIC_KEY_INFO, PKCS11_CKA_EC_PARAMS, PKCS11_CKA_EC_POINT,
   PKCS11_CKA_EC_POINT_X, PKCS11_CKA_EC_POINT_Y,
   PKCS11_CKA_ALLOWED_MECHANISMS]

/-- Modelled from the spec: `valid_pkcs11_attribute_id` accepts a known
Cryptoki attribute of an allowed value-size class for that id (§4.2(d);
the helper is not part of the source tree). -/
def valid_pkcs11_attribute_id (id size : Nat) : Bool :=
  if (pkcs11_attr2boolprop_shift id).isSome then size = 1
  else if id ∈ pkcs11_u32_attribute_ids then size = 4
  else decide (id ∈ pkcs11_variable_attribute_ids)

/-- Pass A scan of `sanitize_class_and_type`: extract CLASS and
KEY_TYPE, rejecting wrong sizes and conflicting duplicates. -/
def sct_scan : List CliEntry → Nat → Nat → Except Nat (Nat × Nat)
  | [], class_found, type_found => .ok (class_found, type_found)
  | (id, v) :: rest, class_found, type_found =>
    if pkcs11_attr_is_class id ≠ 0 then
      if cliValSize v ≠ pkcs11_attr_is_class id then
        .error PKCS11_CKR_TEMPLATE_INCONSISTENT
      else
        let cls := cliValU32 v
        if class_found ≠ PKCS11_CKO_UNDEFINED_ID ∧ class_found ≠ cls then
          .error PKCS11_CKR_TEMPLATE_INCONSISTENT
        else
          sct_scan rest cls type_found
    else if pkcs11_attr_is_type id ≠ 0 then
      if cliValSize v ≠ pkcs11_attr_is_type id then
        .error PKCS11_CKR_TEMPLATE_INCONSISTENT
      else
        let ty := cliValU32 v
        if type_found ≠ PKCS11_CKK_UNDEFINED_ID ∧ type_found ≠ ty then
          .error PKCS11_CKR_TEMPLATE_INCONSISTENT
        else
          sct_scan rest class_found ty
    else
      sct_scan rest class_found type_found

/-- Sanitize class and type-in-class of a client template
(`sanitize_class_and_type`): scan, then emit one canonical CLASS and
one canonical KEY_TYPE entry when found. -/
def sanitize_class_and_type (dst : Blob) (src : List CliEntry) :
    Except Nat Blob :=
  match sct_scan src PKCS11_CKO_UNDEFINED_ID PKCS11_CKK_UNDEFINED_ID with
  | .error rc => .error rc
  | .ok (cls, ty) =>
    let dst2 :=
      if cls ≠ PKCS11_CKO_UNDEFINED_ID then
        add_attribute dst PKCS11_CKA_CLASS (bytes_of_u32 cls)
      else dst
    .ok (if ty ≠ PKCS11_CKK_UNDEFINED_ID then
          add_attribute dst2 PKCS11_CKA_KEY_TYPE (bytes_of_u32 ty)
        else dst2)

/-- Sanitize one boolean property entry (`sanitize_boolprop`); the C
packs the `boolprops`/`sanity` scan state into arrays of 32-bit words
indexed by `shift / 32` and bit `shift % 32`, modelled here as bit
maps. The `PKCS11_RV_NOT_FOUND` error marks a non-boolprop id. -/
def sanitize_boolprop (dst : Blob) (id : Nat) (v : CliVal)
    (boolprops sanity : Nat → Bool) :
    Except Nat (Blob × (Nat → Bool) × (Nat → Bool)) :=
  match pkcs11_attr2boolprop_shift id with
  | none => .error PKCS11_RV_NOT_FOUND
  | some shift =>
    if shift ≥ PKCS11_MAX_BOOLPROP_SHIFT then .error PKCS11_FAILED
    else if sanity shift = true ∧
            (cliValHead v == PKCS11_TRUE) ≠ boolprops shift then
      .error PKCS11_CKR_TEMPLATE_INCONSISTENT
    else
      .ok ((if sanity shift then dst
            else add_attribute dst (PKCS11_BOOLPROPS_BASE + shift)
                   [if cliValHead v == PKCS11_TRUE then 1 else 0]),
           fun s => if s = shift then cliValHead v == PKCS11_TRUE
                    else boolprops s,
           fun s => if s = shift then true else sanity s)

/-- Pass B scan over all entries (`sanitize_boolprops` loop). -/
def sb_scan (dst : Blob) (boolprops sanity : Nat → Bool) :
    List CliEntry → Except Nat Blob
  | [] => .ok dst
  | (id, v) :: rest =>
    match sanitize_boolprop dst id v boolprops sanity with
    | .ok (dst2, b2, s2) => sb_scan dst2 b2 s2 rest
    | .error rc =>
      if rc = PKCS11_RV_NOT_FOUND then sb_scan dst boolprops sanity rest
      else .error rc

/-- Collapse the boolean properties of a client template
(`sanitize_boolprops`). -/
def sanitize_boolprops (dst : Blob) (src : List CliEntry) : Except Nat Blob :=
  sb_scan dst (fun _ => false) (fun _ => false) src

/-- Total serialized byte size of a blob's entries (`attrs_size`). -/
def blob_attrs_size (b : Blob) : Nat :=
  (b.map (fun a => 8 + a.2.length)).sum

/-- Serialized byte image of a blob: the 8-byte header followed by the
`{id, size, value}` entries. -/
def serialize_blob (b : Blob) : List Nat :=
  bytes_of_u32 (blob_attrs_size b) ++ bytes_of_u32 b.length ++
    (b.map (fun a => bytes_of_u32 a.1 ++ bytes_of_u32 a.2.length ++ a.2)).flatten

/-- Sanitize an indirect (template-valued) attribute
(`sanitize_indirect_attr`), parameterized by the sanitizer `recur`
applied to the nested template so that the whole recursion is
structural on the fuel: only WRAP/UNWRAP/DERIVE_TEMPLATE are handled
(`PKCS11_RV_NOT_FOUND` otherwise); the test on
`pkcs11_attr_class_is_key` is the one the source performs. A raw byte
value in indirect position stands for bytes that do not parse as a
nested template; the byte-level parse failure is collapsed to the
`PKCS11_BAD_PARAM` of a short buffer and a sentinel otherwise. -/
def sanitize_indirect_attr_with (recur : List CliEntry → Except Nat Blob)
    (dst : Blob) (id : Nat) (v : CliVal) : Except Nat Blob :=
  let cls := get_class dst
  if cls = PKCS11_CKO_UNDEFINED_ID then .error PKCS11_ERROR
  else if ¬ (id = PKCS11_CKA_WRAP_TEMPLATE ∨ id = PKCS11_CKA_UNWRAP_TEMPLATE ∨
             id = PKCS11_CKA_DERIVE_TEMPLATE) then
    .error PKCS11_RV_NOT_FOUND
  else if pkcs11_attr_class_is_key cls then
    .error PKCS11_CKR_TEMPLATE_INCONSISTENT
  else
    match v with
    | .tmpl sub =>
      match recur sub with
      | .ok obj2 => .ok (add_attribute dst id (serialize_blob obj2))
      | .error rc => .error rc
    | .raw bytes =>
      if bytes.length < 8 then .error PKCS11_BAD_PARAM
      else .error PKCS11_FAILED

/-- Final pass of `sanitize_client_object` (its last `for` loop),
parameterized like `sanitize_indirect_attr_with`: skip
class/type/boolprop entries, recurse into indirect attributes, copy the
rest verbatim after catalog validation. -/
def sanitize_rest_with (recur : List CliEntry → Except Nat Blob)
    (dst : Blob) : List CliEntry → Except Nat Blob
  | [] => .ok dst
  | (id, v) :: rest =>
    if pkcs11_attr_is_class id ≠ 0 ∨ pkcs11_attr_is_type id ≠ 0 ∨
       (pkcs11_attr2boolprop_shift id).isSome then
      sanitize_rest_with recur dst rest
    else
      match sanitize_indirect_attr_with recur dst id v with
      | .ok dst2 => sanitize_rest_with recur dst2 rest
      | .error rc =>
        if rc ≠ PKCS11_RV_NOT_FOUND then .error rc
        else if ¬ valid_pkcs11_attribute_id id (cliValSize v) then
          .error PKCS11_CKR_TEMPLATE_INCONSISTENT
        else
          sanitize_rest_with recur (add_attribute dst id (cliValBytes v)) rest

/-- Sanitize a raw client template (`sanitize_client_object`). The
byte-level header/size checks of the C reject truncated buffers; the
structured input has no such states, so only the entry-level behavior
remains. `fuel` bounds the template nesting depth (the C recursion is
bounded by the client buffer size); exhaustion yields a sentinel error
never reached when `fuel` exceeds the nesting depth. -/
def sanitize_client_object : Nat → List CliEntry → Except Nat Blob
  | 0 => fun _ => .error PKCS11_FAILED
  | fuel + 1 => fun src =>
    match sanitize_class_and_type [] src with
    | .error rc => .error rc
    | .ok dst =>
      match sanitize_boolprops dst src with
      | .error rc => .error rc
      | .ok dst2 => sanitize_rest_with (sanitize_client_object fuel) dst2 src

/-- The `sanitize_indirect_attr` of the source, at a given nesting
fuel. -/
def sanitize_indirect_attr (fuel : Nat) : Blob → Nat → CliVal →
    Except Nat Blob :=
  sanitize_indirect_attr_with (sanitize_client_object fuel)

/-! ## Derived definitions and concrete inputs used by the theorems -/

/-- Parent boolean attribute gating each cryptographic function in
`check_parent_attrs_against_processing` (ENCRYPT..DERIVE; `none` for
functions without such a gate). -/
def func_required_parent_boolprop : ProcessingFunc → Option Nat
  | .ENCRYPT => some PKCS11_CKA_ENCRYPT
  | .DECRYPT => some PKCS11_CKA_DECRYPT
  | .SIGN => some PKCS11_CKA_SIGN
  | .VERIFY => some PKCS11_CKA_VERIFY
  | .WRAP => some PKCS11_CKA_WRAP
  | .UNWRAP => some PKCS11_CKA_UNWRAP
  | .DERIVE => some PKCS11_CKA_DERIVE
  | _ => none

/-- All boolean properties the object builder applies through
`pkcs11_import_object_boolprop` (union of the per-class lists). -/
def pkcs11_builder_boolprops : List Nat :=
  pkcs11_any_object_boolprops ++ pkcs11_any_key_boolprops ++
    pkcs11_symm_key_boolprops ++ pkcs11_public_key_boolprops ++
    pkcs11_private_key_boolprops

/-- PKCS#11 default byte of a boolean property: true only for
MODIFIABLE, COPYABLE and DESTROYABLE. -/
def boolprop_default (attr_id : Nat) : Nat :=
  if attr_id ∈ [PKCS11_CKA_MODIFIABLE, PKCS11_CKA_COPYABLE,
                PKCS11_CKA_DESTROYABLE] then 1 else 0

/-- Value the amended boolean-property rule assigns: the template's
byte when the template carries the property as a 1-byte nonzero value,
else the PKCS#11 default. -/
def boolprop_spec_value (templ : Blob) (attr_id : Nat) : Nat :=
  match get_attribute_checked templ attr_id 1 with
  | some v => if v.headD 0 ≠ 0 then v.headD 0 else boolprop_default attr_id
  | none => boolprop_default attr_id

/-- A session with no active processing state and no authentication. -/
def idle_session : Session := ⟨⟨false, false, false⟩, true, false, false⟩

/-- Sanitized template of the AES import scenario (spec §8, scenario 1). -/
def c1_example_template : Blob :=
  [(PKCS11_CKA_CLASS, bytes_of_u32 PKCS11_CKO_SECRET_KEY),
   (PKCS11_CKA_KEY_TYPE, bytes_of_u32 PKCS11_CKK_AES),
   (PKCS11_CKA_VALUE, List.replicate 16 0),
   (PKCS11_CKA_EXTRACTABLE, [1]), (PKCS11_CKA_SENSITIVE, [0])]

/-- Object built from `c1_example_template` by IMPORT. -/
def c1_example_object : Blob :=
  (create_attributes_from_template c1_example_template [] .IMPORT).toOption.getD []

/-- Sanitized data-object template carrying `MODIFIABLE = false`. -/
def c3_counter_template : Blob :=
  [(PKCS11_CKA_CLASS, bytes_of_u32 PKCS11_CKO_DATA),
   (PKCS11_CKA_MODIFIABLE, [0])]

/-- Object built from `c3_counter_template` by IMPORT. -/
def c3_counter_object : Blob :=
  (create_attributes_from_template c3_counter_template [] .IMPORT).toOption.getD []

/-- Raw client template of a secret key carrying a wrap template: the
class is a key class, so the spec expects the nested blob to be
sanitized recursively and emitted. -/
def c2_failing_template : List CliEntry :=
  [(PKCS11_CKA_CLASS, .raw (bytes_of_u32 PKCS11_CKO_SECRET_KEY)),
   (PKCS11_CKA_WRAP_TEMPLATE, .tmpl [])]

/-- Raw client template of a data object carrying a wrap template: the
class is not a key class, so the spec expects TEMPLATE_INCONSISTENT. -/
def c2_nonkey_template : List CliEntry :=
  [(PKCS11_CKA_CLASS, .raw (bytes_of_u32 PKCS11_CKO_DATA)),
   (PKCS11_CKA_WRAP_TEMPLATE, .tmpl [])]

/-- Raw client template with the LABEL attribute duplicated under two
distinct values. -/
def c4_counter_template : List CliEntry :=
  [(PKCS11_CKA_CLASS, .raw (bytes_of_u32 PKCS11_CKO_DATA)),
   (PKCS11_CKA_LABEL, .raw [65]), (PKCS11_CKA_LABEL, .raw [66])]

/-- Parent attribute list with `SIGN = false` (spec §8, scenario 5). -/
def c6_nonsigning_parent : Blob :=
  [(PKCS11_CKA_CLASS, bytes_of_u32 PKCS11_CKO_SECRET_KEY),
   (PKCS11_CKA_KEY_TYPE, bytes_of_u32 PKCS11_CKK_SHA256_HMAC),
   (PKCS11_CKA_SIGN, [0])]

/-! # Theorems -/

/-! ## Helper lemmas on attribute lookup -/

theorem get_attribute_ptr_append_of_some {b1 : Blob} {j : Nat} {v : List Nat}
    (b2 : Blob) (h : get_attribute_ptr b1 j = some v) :
    get_attribute_ptr (b1 ++ b2) j = some v := by
  induction b1 with
  | nil => simp [get_attribute_ptr] at h
  | cons e t ih =>
    obtain ⟨i, w⟩ := e
    by_cases hi : i = j
    · rw [get_attribute_ptr, if_pos hi] at h
      rw [List.cons_append, get_attribute_ptr, if_pos hi]
      exact h
    · rw [get_attribute_ptr, if_neg hi] at h
      rw [List.cons_append, get_attribute_ptr, if_neg hi]
      exact ih h

theorem get_attribute_ptr_append_of_none {b1 : Blob} {j : Nat}
    (b2 : Blob) (h : get_attribute_ptr b1 j = none) :
    get_attribute_ptr (b1 ++ b2) j = get_attribute_ptr b2 j := by
  induction b1 with
  | nil => simp
  | cons e t ih =>
    obtain ⟨i, w⟩ := e
    by_cases hi : i = j
    · rw [get_attribute_ptr, if_pos hi] at h
      exact absurd h (by simp)
    · rw [get_attribute_ptr, if_neg hi] at h
      rw [List.cons_append, get_attribute_ptr, if_neg hi]
      exact ih h

theorem get_attribute_ptr_add_self {b : Blob} {j : Nat} (v : List Nat)
    (h : get_attribute_ptr b j = none) :
    get_attribute_ptr (add_attribute b j v) j = some v := by
  rw [add_attribute, get_attribute_ptr_append_of_none _ h]
  simp [get_attribute_ptr]

theorem get_attribute_ptr_add_ne {b : Blob} {i j : Nat} (v : List Nat)
    (h : i ≠ j) :
    get_attribute_ptr (add_attribute b i v) j = get_attribute_ptr b j := by
  rw [add_attribute]
  cases hb : get_attribute_ptr b j with
  | some w => exact get_attribute_ptr_append_of_some _ hb
  | none =>
    rw [get_attribute_ptr_append_of_none _ hb]
    simp [get_attribute_ptr, h]

theorem get_attribute_ptr_eq_none_iff {b : Blob} {j : Nat} :
    get_attribute_ptr b j = none ↔ j ∉ b.map Prod.fst := by
  induction b with
  | nil => simp [get_attribute_ptr]
  | cons e t ih =>
    obtain ⟨i, w⟩ := e
    by_cases hi : i = j
    · subst hi
      simp [get_attribute_ptr]
    · rw [get_attribute_ptr, if_neg hi]
      simp only [List.map_cons, List.mem_cons, not_or]
      rw [ih]
      constructor
      · exact fun h => ⟨fun hj => hi hj.symm, h⟩
      · exact fun h => h.2

theorem get_bool_add_ne {b : Blob} {i j : Nat} (v : List Nat) (h : i ≠ j) :
    get_bool (add_attribute b i v) j = get_bool b j := by
  rw [get_bool, get_bool, get_attribute_ptr_add_ne v h]

/-! ## C8: token mechanism flags comply with the PKCS#11 catalog -/

/-- C8: for every mechanism of the `token_mechanism` table with
non-zero flags, its token-supported function flags are a subset of the
PKCS#11-allowed flags recorded for the same mechanism id in
`pkcs11_modes` (in particular the id is present there). -/
theorem c8_token_mechanism_flags_comply_pkcs11 :
    ∀ m ∈ token_mechanism, m.flags ≠ 0 →
      mechanism_is_valid m.id = true ∧
      m.flags &&& pkcs11_allowed_flags m.id = m.flags := by decide

/-- C8 witness: the subset property evaluated at the AES-ECB entry. -/
theorem c8_token_mechanism_witness :
    mechanism_is_valid PKCS11_CKM_AES_ECB = true ∧
    CKFM_CIPHER &&& pkcs11_allowed_flags PKCS11_CKM_AES_ECB = CKFM_CIPHER :=
  c8_token_mechanism_flags_comply_pkcs11
    ⟨PKCS11_CKM_AES_ECB, CKFM_CIPHER, false⟩ (by decide) (by decide)

/-! ## C9: unsupported creation mechanisms panic -/

/-- C9: `check_created_attrs_against_processing` does not return a
status code for a mechanism id outside the supported creation set: it
reaches the `TEE_Panic(proc_id)` default branch, whatever the
attribute list. -/
theorem c9_created_attrs_processing_panics_on_unsupported_id :
    ∀ (proc_id : Nat) (head : Blob),
      proc_id ∉ [PKCS11_PROCESSING_IMPORT, PKCS11_CKM_ECDH1_DERIVE,
                 PKCS11_CKM_ECDH1_COFACTOR_DERIVE, PKCS11_CKM_DH_PKCS_DERIVE,
                 PKCS11_CKM_GENERIC_SECRET_KEY_GEN, PKCS11_CKM_AES_KEY_GEN,
                 PKCS11_CKM_EC_KEY_PAIR_GEN, PKCS11_CKM_RSA_PKCS_KEY_PAIR_GEN] →
      check_created_attrs_against_processing proc_id head =
        .teePanic proc_id := by
  intro p head hp
  simp only [List.mem_cons, List.not_mem_nil, or_false, not_or] at hp
  obtain ⟨h1, h2, h3, h4, h5, h6, h7, h8⟩ := hp
  simp only [check_created_attrs_against_processing]
  rw [if_neg (by tauto), if_neg (by tauto)]

/-- C9 witness: the AES-CBC cipher mechanism (not a creation
mechanism) panics on an empty attribute list. -/
theorem c9_created_attrs_processing_witness :
    check_created_attrs_against_processing PKCS11_CKM_AES_CBC [] =
      .teePanic PKCS11_CKM_AES_CBC :=
  c9_created_attrs_processing_panics_on_unsupported_id
    PKCS11_CKM_AES_CBC [] (by decide)

/-! ## C10: access check class gate -/

/-- C10: `check_access_attrs_against_token` rejects with
KEY_FUNCTION_NOT_PERMITTED every object whose class is none of DATA,
SECRET_KEY, PUBLIC_KEY, PRIVATE_KEY, whatever the session state; and a
PRIVATE_KEY object is treated as private in a public session whatever
its PRIVATE attribute. -/
theorem c10_access_attrs_class_gate :
    ∀ (session : Session) (head : Blob),
      (get_class head ∉ [PKCS11_CKO_DATA, PKCS11_CKO_SECRET_KEY,
                         PKCS11_CKO_PUBLIC_KEY, PKCS11_CKO_PRIVATE_KEY] →
        check_access_attrs_against_token session head =
          .ret PKCS11_CKR_KEY_FUNCTION_NOT_PERMITTED) ∧
      (get_class head = PKCS11_CKO_PRIVATE_KEY →
        session.public_session = true →
        check_access_attrs_against_token session head =
          .ret PKCS11_CKR_KEY_FUNCTION_NOT_PERMITTED) := by
  intro s head
  constructor
  · intro h
    simp only [List.mem_cons, List.not_mem_nil, or_false, not_or] at h
    obtain ⟨h0, h4, h2, h3⟩ := h
    simp only [check_access_attrs_against_token]
    rw [if_neg (by tauto), if_neg h3]
  · intro hcl hpub
    simp only [check_access_attrs_against_token]
    rw [hcl]
    rw [if_neg (by decide), if_pos rfl, if_pos hpub]

/-- C10 witness: an OTP-class object is rejected in a logged-in
session, and a PRIVATE_KEY object with `PRIVATE = false` is rejected in
a public session. -/
theorem c10_access_attrs_witness :
    check_access_attrs_against_token ⟨⟨false, false, false⟩, false, false, true⟩
      [(PKCS11_CKA_CLASS, bytes_of_u32 PKCS11_CKO_OTP_KEY)] =
      .ret PKCS11_CKR_KEY_FUNCTION_NOT_PERMITTED ∧
    check_access_attrs_against_token idle_session
      [(PKCS11_CKA_CLASS, bytes_of_u32 PKCS11_CKO_PRIVATE_KEY),
       (PKCS11_CKA_PRIVATE, [0])] =
      .ret PKCS11_CKR_KEY_FUNCTION_NOT_PERMITTED :=
  ⟨(c10_access_attrs_class_gate _ _).1 (by decide),
   (c10_access_attrs_class_gate _ _).2 (by decide) rfl⟩

/-! ## C5: mechanism/function gate at INIT -/

/-- C5: at step INIT, `check_mechanism_against_processing` always
passes IMPORT, COPY, MODIFY and DESTROY; for every other function it
returns OK exactly when the mechanism's token-supported function flags
contain the function's flag, and KEY_FUNCTION_NOT_PERMITTED exactly
otherwise. -/
theorem c5_mechanism_init_gate :
    ∀ (session : Session) (mechanism_type : Nat) (func : ProcessingFunc),
      (func ∈ [ProcessingFunc.IMPORT, ProcessingFunc.COPY,
               ProcessingFunc.MODIFY, ProcessingFunc.DESTROY] →
        check_mechanism_against_processing session mechanism_type func .INIT =
          .ret PKCS11_CKR_OK) ∧
      (func ∉ [ProcessingFunc.IMPORT, ProcessingFunc.COPY,
               ProcessingFunc.MODIFY, ProcessingFunc.DESTROY] →
        (check_mechanism_against_processing session mechanism_type func .INIT =
            .ret PKCS11_CKR_OK ↔
          mechanism_supported_flags mechanism_type &&&
            pkcs11_func2ckfm func ≠ 0) ∧
        (check_mechanism_against_processing session mechanism_type func .INIT =
            .ret PKCS11_CKR_KEY_FUNCTION_NOT_PERMITTED ↔
          mechanism_supported_flags mechanism_type &&&
            pkcs11_func2ckfm func = 0)) := by
  intro s m f
  constructor
  · intro hf
    fin_cases hf <;> rfl
  · intro hf
    cases f
    all_goals (try (exact absurd (by decide) hf))
    all_goals (
      simp only [check_mechanism_against_processing]
      split_ifs with hc
      · exact ⟨⟨fun _ => hc, fun _ => rfl⟩,
          ⟨fun h => absurd h (by decide), fun h => absurd h hc⟩⟩
      · exact ⟨⟨fun h => absurd h (by decide), fun h => absurd h hc⟩,
          ⟨fun _ => not_ne_iff.mp hc, fun _ => rfl⟩⟩)

/-- C5 witness: SIGN INIT passes on SHA256-HMAC, fails with
KEY_FUNCTION_NOT_PERMITTED on the advertised-only ECDSA, and IMPORT
always passes. -/
theorem c5_mechanism_init_witness :
    check_mechanism_against_processing idle_session PKCS11_CKM_SHA256_HMAC
      .SIGN .INIT = .ret PKCS11_CKR_OK ∧
    check_mechanism_against_processing idle_session PKCS11_CKM_ECDSA
      .SIGN .INIT = .ret PKCS11_CKR_KEY_FUNCTION_NOT_PERMITTED ∧
    check_mechanism_against_processing idle_session PKCS11_CKM_ECDSA
      .IMPORT .INIT = .ret PKCS11_CKR_OK :=
  ⟨((c5_mechanism_init_gate idle_session PKCS11_CKM_SHA256_HMAC .SIGN).2
      (by decide)).1.mpr (by decide),
   ((c5_mechanism_init_gate idle_session PKCS11_CKM_ECDSA .SIGN).2
      (by decide)).2.mpr (by decide),
   (c5_mechanism_init_gate idle_session PKCS11_CKM_ECDSA .IMPORT).1
      (by decide)⟩

/-! ## C6: parent boolean gates -/

/-- C6: for each function among ENCRYPT, DECRYPT, SIGN, VERIFY, WRAP,
UNWRAP, DERIVE, `check_parent_attrs_against_processing` returns
KEY_FUNCTION_NOT_PERMITTED whenever the parent's matching boolean
attribute is not set, whatever the mechanism. -/
theorem c6_parent_boolprop_gate :
    ∀ (proc_id : Nat) (func : ProcessingFunc) (head : Blob) (attr_id : Nat),
      func_required_parent_boolprop func = some attr_id →
      get_bool head attr_id = false →
      check_parent_attrs_against_processing proc_id func head =
        .ret PKCS11_CKR_KEY_FUNCTION_NOT_PERMITTED := by
  intro p f head a hf hb
  cases f <;> simp only [func_required_parent_boolprop] at hf <;>
    (try cases hf) <;>
    simp [check_parent_attrs_against_processing, hb]

/-- C6 witness: SIGN_INIT with SHA256-HMAC on a parent with
`SIGN = false` fails with KEY_FUNCTION_NOT_PERMITTED (spec scenario 5). -/
theorem c6_parent_boolprop_witness :
    check_parent_attrs_against_processing PKCS11_CKM_SHA256_HMAC .SIGN
      c6_nonsigning_parent = .ret PKCS11_CKR_KEY_FUNCTION_NOT_PERMITTED :=
  c6_parent_boolprop_gate PKCS11_CKM_SHA256_HMAC .SIGN
    c6_nonsigning_parent PKCS11_CKA_SIGN rfl (by decide)

/-! ## C7: pairing of the CKA_ID attribute -/

/-- C7: `add_missing_attribute_id` on a pair of objects leaves both
unchanged when both carry an ID, copies the single present ID to the
missing side, and otherwise adds one identical freshly generated ID of
`PKCS11_CKA_DEFAULT_SIZE` (16) bytes to both. -/
theorem c7_add_missing_attribute_id_cases :
    ∀ (rng : Nat → Nat) (a1 a2 : Blob),
      (∀ v1 v2, get_attribute_ptr a1 PKCS11_CKA_ID = some v1 →
        get_attribute_ptr a2 PKCS11_CKA_ID = some v2 →
        add_missing_attribute_id rng a1 (some a2) = (a1, some a2)) ∧
      (∀ v1, get_attribute_ptr a1 PKCS11_CKA_ID = some v1 →
        get_attribute_ptr a2 PKCS11_CKA_ID = none →
        add_missing_attribute_id rng a1 (some a2) =
          (a1, some (add_attribute a2 PKCS11_CKA_ID v1)) ∧
        get_attribute_ptr (add_attribute a2 PKCS11_CKA_ID v1)
          PKCS11_CKA_ID = some v1) ∧
      (∀ v2, get_attribute_ptr a1 PKCS11_CKA_ID = none →
        get_attribute_ptr a2 PKCS11_CKA_ID = some v2 →
        add_missing_attribute_id rng a1 (some a2) =
          (add_attribute a1 PKCS11_CKA_ID v2, some a2) ∧
        get_attribute_ptr (add_attribute a1 PKCS11_CKA_ID v2)
          PKCS11_CKA_ID = some v2) ∧
      (get_attribute_ptr a1 PKCS11_CKA_ID = none →
       get_attribute_ptr a2 PKCS11_CKA_ID = none →
       ∃ fresh,
         add_missing_attribute_id rng a1 (some a2) =
           (add_attribute a1 PKCS11_CKA_ID fresh,
            some (add_attribute a2 PKCS11_CKA_ID fresh)) ∧
         fresh.length = PKCS11_CKA_DEFAULT_SIZE ∧
         get_attribute_ptr (add_attribute a1 PKCS11_CKA_ID fresh)
           PKCS11_CKA_ID = some fresh ∧
         get_attribute_ptr (add_attribute a2 PKCS11_CKA_ID fresh)
           PKCS11_CKA_ID = some fresh) := by
  intro rng a1 a2
  refine ⟨?_, ?_, ?_, ?_⟩
  · intro v1 v2 h1 h2
    simp only [add_missing_attribute_id, h1, h2]
  · intro v1 h1 h2
    exact ⟨by simp only [add_missing_attribute_id, h1, h2],
      get_attribute_ptr_add_self v1 h2⟩
  · intro v2 h1 h2
    exact ⟨by simp only [add_missing_attribute_id, h1, h2],
      get_attribute_ptr_add_self v2 h1⟩
  · intro h1 h2
    refine ⟨(List.range PKCS11_CKA_DEFAULT_SIZE).map rng,
      by simp only [add_missing_attribute_id, h1, h2], by simp,
      get_attribute_ptr_add_self _ h1, get_attribute_ptr_add_self _ h2⟩

/-! ## C2: indirect template attributes and the key-class test -/

/-- C2 (evaluation of the code at the deciding inputs): for a template
whose extracted class IS a key class (SECRET_KEY) carrying a
WRAP_TEMPLATE, the sanitizer returns TEMPLATE_INCONSISTENT; for a
non-key class (DATA) it recursively sanitizes the nested blob and
emits it under the same id. This is the exact inverse of the claim:
`sanitize_indirect_attr` fails when `pkcs11_attr_class_is_key(class)`
holds, although its own comment says such attributes are expected only
for keys. -/
theorem c2_indirect_template_key_class_inverted :
    sanitize_client_object 2 c2_failing_template =
      .error PKCS11_CKR_TEMPLATE_INCONSISTENT ∧
    sanitize_client_object 2 c2_nonkey_template =
      .ok [(PKCS11_CKA_CLASS, bytes_of_u32 PKCS11_CKO_DATA),
           (PKCS11_CKA_WRAP_TEMPLATE, serialize_blob [])] :=
  ⟨rfl, rfl⟩

/-! ## C3: boolean-property defaults in the object builder -/

/-- C3 counterexample: the sanitized template carries
`MODIFIABLE = false` (byte 0) but the built object carries the PKCS#11
default `true` (byte 1), so the built object does not keep the
template's value. -/
theorem c3_template_false_is_overridden :
    create_attributes_from_template c3_counter_template [] .IMPORT =
      .ok c3_counter_object ∧
    get_attribute_ptr c3_counter_template PKCS11_CKA_MODIFIABLE = some [0] ∧
    get_attribute_ptr c3_counter_object PKCS11_CKA_MODIFIABLE = some [1] :=
  ⟨rfl, rfl, rfl⟩

theorem get_attribute_checked_length {templ : Blob} {a n : Nat}
    {v : List Nat} (h : get_attribute_checked templ a n = some v) :
    v.length = n := by
  unfold get_attribute_checked at h
  cases hp : get_attribute_ptr templ a with
  | none => rw [hp] at h; cases h
  | some w =>
    rw [hp] at h
    dsimp only at h
    split at h
    · injection h with h
      subst h
      assumption
    · cases h

/-- C3 (amended): for every boolean property the object builder
applies, `pkcs11_import_object_boolprop` emits the template's byte when
the template specifies the property with a nonzero (true) byte, and
otherwise — absent, wrong size, or specified false — emits the PKCS#11
default, which is true exactly for MODIFIABLE, COPYABLE and
DESTROYABLE. -/
theorem c3_boolprop_default_amended :
    ∀ (out templ : Blob) (attr_id : Nat),
      attr_id ∈ pkcs11_builder_boolprops →
      pkcs11_import_object_boolprop out templ attr_id =
        .ok (add_attribute out attr_id
              [boolprop_spec_value templ attr_id]) := by
  intro out templ a ha
  have hall : ∀ x ∈ pkcs11_builder_boolprops,
      pkcs11_object_default_boolprop x = some (boolprop_default x) := by decide
  have hdef := hall a ha
  cases hc : get_attribute_checked templ a 1 with
  | none =>
    simp only [pkcs11_import_object_boolprop, boolprop_spec_value, hc, hdef]
  | some v =>
    obtain ⟨b, rfl⟩ :=
      List.length_eq_one.mp (get_attribute_checked_length hc)
    by_cases hb : b = 0
    · subst hb
      simp [pkcs11_import_object_boolprop, boolprop_spec_value, hc, hdef]
    · simp [pkcs11_import_object_boolprop, boolprop_spec_value, hc, hb]

/-- C3 witness: the amended rule evaluated at the MODIFIABLE property
of the template that specifies it false. -/
theorem c3_boolprop_default_witness :
    pkcs11_import_object_boolprop [] c3_counter_template
      PKCS11_CKA_MODIFIABLE =
      .ok (add_attribute [] PKCS11_CKA_MODIFIABLE
            [boolprop_spec_value c3_counter_template PKCS11_CKA_MODIFIABLE]) :=
  c3_boolprop_default_amended [] c3_counter_template PKCS11_CKA_MODIFIABLE
    (by decide)

/-! ## C4: duplicate attribute handling in the sanitizer -/

theorem u32_of_bytes_of_u32 {x : Nat} (h : x < 4294967296) :
    u32_of_bytes (bytes_of_u32 x) = x := by
  simp only [u32_of_bytes, bytes_of_u32, List.headD_cons, List.drop_succ_cons,
    List.drop_zero]
  omega

theorem cliValU32_raw (b : List Nat) :
    cliValU32 (CliVal.raw b) = u32_of_bytes b := rfl

theorem cliValSize_raw (b : List Nat) : cliValSize (CliVal.raw b) = b.length :=
  rfl

/-- Pass A only ever fails with TEMPLATE_INCONSISTENT. -/
theorem sct_scan_error_eq :
    ∀ (src : List CliEntry) (c t rc : Nat),
      sct_scan src c t = .error rc →
      rc = PKCS11_CKR_TEMPLATE_INCONSISTENT := by
  intro src
  induction src with
  | nil => intro c t rc h; simp [sct_scan] at h
  | cons e rest ih =>
    obtain ⟨id, v⟩ := e
    intro c t rc h
    simp only [sct_scan] at h
    split at h
    · split at h
      · exact (Except.error.inj h).symm
      · split at h
        · exact (Except.error.inj h).symm
        · exact ih _ _ _ h
    · split at h
      · split at h
        · exact (Except.error.inj h).symm
        · split at h
          · exact (Except.error.inj h).symm
          · exact ih _ _ _ h
      · exact ih _ _ _ h

/-- Once pass A has committed to a non-UNDEFINED class, every further
well-sized class entry must agree with it for the scan to succeed. -/
theorem sct_scan_class_forced :
    ∀ (src : List CliEntry) (c t c' t' : Nat),
      sct_scan src c t = .ok (c', t') → c ≠ PKCS11_CKO_UNDEFINED_ID →
      ∀ b, (PKCS11_CKA_CLASS, CliVal.raw b) ∈ src → b.length = 4 →
        u32_of_bytes b = c := by
  intro src
  induction src with
  | nil => intro c t c' t' h hc b hb hlen; simp at hb
  | cons e rest ih =>
    obtain ⟨id, v⟩ := e
    intro c t c' t' h hc b hb hlen
    simp only [sct_scan] at h
    rcases List.mem_cons.mp hb with he | hr
    · injection he with h1 h2
      subst h1
      subst h2
      rw [if_pos (by decide : pkcs11_attr_is_class PKCS11_CKA_CLASS ≠ 0)] at h
      rw [if_neg (by simp [cliValSize_raw, pkcs11_attr_is_class, hlen])] at h
      split at h
      · exact Except.noConfusion h
      · rename_i hcf
        have hceq : c = cliValU32 (CliVal.raw b) := by
          by_contra hne
          exact hcf ⟨hc, hne⟩
        rw [cliValU32_raw] at hceq
        exact hceq.symm
    · split at h
      · split at h
        · exact Except.noConfusion h
        · split at h
          · exact Except.noConfusion h
          · rename_i hcls hsz hcf
            have hceq : c = cliValU32 v := by
              by_contra hne
              exact hcf ⟨hc, hne⟩
            have h2 := ih _ _ _ _ h (by rw [← hceq]; exact hc) b hr hlen
            exact h2.trans hceq.symm
      · split at h
        · split at h
          · exact Except.noConfusion h
          · split at h
            · exact Except.noConfusion h
            · exact ih _ _ _ _ h hc b hr hlen
        · exact ih _ _ _ _ h hc b hr hlen

/-- If pass A succeeds, any two well-sized class entries with
non-UNDEFINED values carry the same class value. -/
theorem sct_scan_class_unique :
    ∀ (src : List CliEntry) (c t c' t' : Nat),
      sct_scan src c t = .ok (c', t') →
      ∀ b1 b2, (PKCS11_CKA_CLASS, CliVal.raw b1) ∈ src →
        (PKCS11_CKA_CLASS, CliVal.raw b2) ∈ src →
        b1.length = 4 → b2.length = 4 →
        u32_of_bytes b1 ≠ PKCS11_UNDEFINED_ID →
        u32_of_bytes b2 ≠ PKCS11_UNDEFINED_ID →
        u32_of_bytes b1 = u32_of_bytes b2 := by
  intro src
  induction src with
  | nil => intro c t c' t' h b1 b2 h1 _ _ _ _ _; simp at h1
  | cons e rest ih =>
    obtain ⟨id, v⟩ := e
    intro c t c' t' h b1 b2 hm1 hm2 hl1 hl2 hu1 hu2
    rcases List.mem_cons.mp hm1 with he1 | hr1 <;>
      rcases List.mem_cons.mp hm2 with he2 | hr2
    · injection he1 with h1a h1b
      injection he2 with h2a h2b
      have : CliVal.raw b1 = CliVal.raw b2 := h1b.trans h2b.symm
      injection this with hb
      rw [hb]
    · injection he1 with h1a h1b
      subst h1a
      subst h1b
      simp only [sct_scan] at h
      rw [if_pos (by decide : pkcs11_attr_is_class PKCS11_CKA_CLASS ≠ 0)] at h
      rw [if_neg (by simp [cliValSize_raw, pkcs11_attr_is_class, hl1])] at h
      split at h
      · exact Except.noConfusion h
      · have h2 := sct_scan_class_forced rest _ _ _ _ h
          (by rw [cliValU32_raw]; exact hu1) b2 hr2 hl2
        rw [cliValU32_raw] at h2
        exact h2.symm
    · injection he2 with h2a h2b
      subst h2a
      subst h2b
      simp only [sct_scan] at h
      rw [if_pos (by decide : pkcs11_attr_is_class PKCS11_CKA_CLASS ≠ 0)] at h
      rw [if_neg (by simp [cliValSize_raw, pkcs11_attr_is_class, hl2])] at h
      split at h
      · exact Except.noConfusion h
      · have h2 := sct_scan_class_forced rest _ _ _ _ h
          (by rw [cliValU32_raw]; exact hu2) b1 hr1 hl1
        rw [cliValU32_raw] at h2
        exact h2
    · simp only [sct_scan] at h
      split at h
      · split at h
        · exact Except.noConfusion h
        · split at h
          · exact Except.noConfusion h
          · exact ih _ _ _ _ h b1 b2 hr1 hr2 hl1 hl2 hu1 hu2
      · split at h
        · split at h
          · exact Except.noConfusion h
          · split at h
            · exact Except.noConfusion h
            · exact ih _ _ _ _ h b1 b2 hr1 hr2 hl1 hl2 hu1 hu2
        · exact ih _ _ _ _ h b1 b2 hr1 hr2 hl1 hl2 hu1 hu2

/-- Once pass A has committed to a non-UNDEFINED key type, every
further well-sized key-type entry must agree with it. -/
theorem sct_scan_type_forced :
    ∀ (src : List CliEntry) (c t c' t' : Nat),
      sct_scan src c t = .ok (c', t') → t ≠ PKCS11_CKK_UNDEFINED_ID →
      ∀ b, (PKCS11_CKA_KEY_TYPE, CliVal.raw b) ∈ src → b.length = 4 →
        u32_of_bytes b = t := by
  intro src
  induction src with
  | nil => intro c t c' t' h ht b hb hlen; simp at hb
  | cons e rest ih =>
    obtain ⟨id, v⟩ := e
    intro c t c' t' h ht b hb hlen
    simp only [sct_scan] at h
    rcases List.mem_cons.mp hb with he | hr
    · injection he with h1 h2
      subst h1
      subst h2
      rw [if_neg (by decide :
            ¬ pkcs11_attr_is_class PKCS11_CKA_KEY_TYPE ≠ 0)] at h
      rw [if_pos (by decide : pkcs11_attr_is_type PKCS11_CKA_KEY_TYPE ≠ 0)] at h
      rw [if_neg (by simp [cliValSize_raw, pkcs11_attr_is_type, hlen])] at h
      split at h
      · exact Except.noConfusion h
      · rename_i hcf
        have hteq : t = cliValU32 (CliVal.raw b) := by
          by_contra hne
          exact hcf ⟨ht, hne⟩
        rw [cliValU32_raw] at hteq
        exact hteq.symm
    · split at h
      · split at h
        · exact Except.noConfusion h
        · split at h
          · exact Except.noConfusion h
          · exact ih _ _ _ _ h ht b hr hlen
      · split at h
        · split at h
          · exact Except.noConfusion h
          · split at h
            · exact Except.noConfusion h
            · rename_i hcls htyp hsz hcf
              have hteq : t = cliValU32 v := by
                by_contra hne
                exact hcf ⟨ht, hne⟩
              have h2 := ih _ _ _ _ h (by rw [← hteq]; exact ht) b hr hlen
              exact h2.trans hteq.symm
        · exact ih _ _ _ _ h ht b hr hlen

/-- If pass A succeeds, any two well-sized key-type entries with
non-UNDEFINED values carry the same type value. -/
theorem sct_scan_type_unique :
    ∀ (src : List CliEntry) (c t c' t' : Nat),
      sct_scan src c t = .ok (c', t') →
      ∀ b1 b2, (PKCS11_CKA_KEY_TYPE, CliVal.raw b1) ∈ src →
        (PKCS11_CKA_KEY_TYPE, CliVal.raw b2) ∈ src →
        b1.length = 4 → b2.length = 4 →
        u32_of_bytes b1 ≠ PKCS11_UNDEFINED_ID →
        u32_of_bytes b2 ≠ PKCS11_UNDEFINED_ID →
        u32_of_bytes b1 = u32_of_bytes b2 := by
  intro src
  induction src with
  | nil => intro c t c' t' h b1 b2 h1 _ _ _ _ _; simp at h1
  | cons e rest ih =>
    obtain ⟨id, v⟩ := e
    intro c t c' t' h b1 b2 hm1 hm2 hl1 hl2 hu1 hu2
    rcases List.mem_cons.mp hm1 with he1 | hr1 <;>
      rcases List.mem_cons.mp hm2 with he2 | hr2
    · injection he1 with h1a h1b
      injection he2 with h2a h2b
      have : CliVal.raw b1 = CliVal.raw b2 := h1b.trans h2b.symm
      injection this with hb
      rw [hb]
    · injection he1 with h1a h1b
      subst h1a
      subst h1b
      simp only [sct_scan] at h
      rw [if_neg (by decide :
            ¬ pkcs11_attr_is_class PKCS11_CKA_KEY_TYPE ≠ 0)] at h
      rw [if_pos (by decide : pkcs11_attr_is_type PKCS11_CKA_KEY_TYPE ≠ 0)] at h
      rw [if_neg (by simp [cliValSize_raw, pkcs11_attr_is_type, hl1])] at h
      split at h
      · exact Except.noConfusion h
      · have h2 := sct_scan_type_forced rest _ _ _ _ h
          (by rw [cliValU32_raw]; exact hu1) b2 hr2 hl2
        rw [cliValU32_raw] at h2
        exact h2.symm
    · injection he2 with h2a h2b
      subst h2a
      subst h2b
      simp only [sct_scan] at h
      rw [if_neg (by decide :
            ¬ pkcs11_attr_is_class PKCS11_CKA_KEY_TYPE ≠ 0)] at h
      rw [if_pos (by decide : pkcs11_attr_is_type PKCS11_CKA_KEY_TYPE ≠ 0)] at h
      rw [if_neg (by simp [cliValSize_raw, pkcs11_attr_is_type, hl2])] at h
      split at h
      · exact Except.noConfusion h
      · have h2 := sct_scan_type_forced rest _ _ _ _ h
          (by rw [cliValU32_raw]; exact hu2) b1 hr1 hl1
        rw [cliValU32_raw] at h2
        exact h2
    · simp only [sct_scan] at h
      split at h
      · split at h
        · exact Except.noConfusion h
        · split at h
          · exact Except.noConfusion h
          · exact ih _ _ _ _ h b1 b2 hr1 hr2 hl1 hl2 hu1 hu2
      · split at h
        · split at h
          · exact Except.noConfusion h
          · split at h
            · exact Except.noConfusion h
            · exact ih _ _ _ _ h b1 b2 hr1 hr2 hl1 hl2 hu1 hu2
        · exact ih _ _ _ _ h b1 b2 hr1 hr2 hl1 hl2 hu1 hu2

/-- Every boolean property bit position is below the array bound. -/
theorem attr2boolprop_shift_lt {id s : Nat}
    (h : pkcs11_attr2boolprop_shift id = some s) :
    s < PKCS11_MAX_BOOLPROP_SHIFT := by
  unfold pkcs11_attr2boolprop_shift at h
  cases hf : boolprop_shift_table.find? (fun e => e.1 == id) with
  | none => rw [hf] at h; cases h
  | some e =>
    rw [hf] at h
    injection h with h
    subst h
    have hall : ∀ x ∈ boolprop_shift_table,
        x.2 < PKCS11_MAX_BOOLPROP_SHIFT := by decide
    exact hall e (List.mem_of_find?_eq_some hf)

/-- A boolean property entry never fails the pass-B step with a code
other than NOT_FOUND or TEMPLATE_INCONSISTENT. -/
theorem sanitize_boolprop_error_codes {dst : Blob} {id : Nat} {v : CliVal}
    {bp sa : Nat → Bool} {rc : Nat}
    (h : sanitize_boolprop dst id v bp sa = .error rc) :
    rc = PKCS11_RV_NOT_FOUND ∨ rc = PKCS11_CKR_TEMPLATE_INCONSISTENT := by
  unfold sanitize_boolprop at h
  cases hs : pkcs11_attr2boolprop_shift id with
  | none => rw [hs] at h; exact Or.inl (Except.error.inj h).symm
  | some s0 =>
    rw [hs] at h
    dsimp only at h
    rw [if_neg (not_le.mpr (attr2boolprop_shift_lt hs))] at h
    split at h
    · exact Or.inr (Except.error.inj h).symm
    · exact Except.noConfusion h

/-- A NOT_FOUND outcome of the pass-B step means the identifier is not
a boolean property. -/
theorem sanitize_boolprop_not_found_inv {dst : Blob} {id : Nat} {v : CliVal}
    {bp sa : Nat → Bool}
    (h : sanitize_boolprop dst id v bp sa = .error PKCS11_RV_NOT_FOUND) :
    pkcs11_attr2boolprop_shift id = none := by
  unfold sanitize_boolprop at h
  cases hs : pkcs11_attr2boolprop_shift id with
  | none => rfl
  | some s0 =>
    rw [hs] at h
    dsimp only at h
    rw [if_neg (not_le.mpr (attr2boolprop_shift_lt hs))] at h
    split at h
    · injection h with h
      exact absurd h (by decide)
    · exact Except.noConfusion h

/-- Inversion of a successful pass-B step: the identifier is a boolean
property whose normalized value does not conflict with the scan state,
and the state is updated at its bit position. -/
theorem sanitize_boolprop_ok_inv {dst : Blob} {id : Nat} {v : CliVal}
    {bp sa : Nat → Bool} {r : Blob × (Nat → Bool) × (Nat → Bool)}
    (h : sanitize_boolprop dst id v bp sa = .ok r) :
    ∃ s0, pkcs11_attr2boolprop_shift id = some s0 ∧
      ¬(sa s0 = true ∧ (cliValHead v == PKCS11_TRUE) ≠ bp s0) ∧
      r.2.1 = (fun s => if s = s0 then cliValHead v == PKCS11_TRUE
                        else bp s) ∧
      r.2.2 = (fun s => if s = s0 then true else sa s) := by
  unfold sanitize_boolprop at h
  cases hs : pkcs11_attr2boolprop_shift id with
  | none => rw [hs] at h; dsimp only at h; exact Except.noConfusion h
  | some s0 =>
    rw [hs] at h
    dsimp only at h
    rw [if_neg (not_le.mpr (attr2boolprop_shift_lt hs))] at h
    split at h
    · exact Except.noConfusion h
    · rename_i hguard
      injection h with h
      exact ⟨s0, rfl, hguard, by rw [← h], by rw [← h]⟩

/-- Pass B only ever fails with TEMPLATE_INCONSISTENT. -/
theorem sb_scan_error_eq :
    ∀ (src : List CliEntry) (dst : Blob) (bp sa : Nat → Bool) (rc : Nat),
      sb_scan dst bp sa src = .error rc →
      rc = PKCS11_CKR_TEMPLATE_INCONSISTENT := by
  intro src
  induction src with
  | nil => intro dst bp sa rc h; simp [sb_scan] at h
  | cons e rest ih =>
    obtain ⟨id0, v0⟩ := e
    intro dst bp sa rc h
    simp only [sb_scan] at h
    cases hsb : sanitize_boolprop dst id0 v0 bp sa with
    | ok r =>
      obtain ⟨d2, b2, s2⟩ := r
      simp only [hsb] at h
      exact ih _ _ _ _ h
    | error rc' =>
      simp only [hsb] at h
      split at h
      · exact ih _ _ _ _ h
      · rename_i hne
        injection h with h
        rcases sanitize_boolprop_error_codes hsb with h1 | h1
        · exact absurd h1 hne
        · rw [← h]; exact h1

/-- Once pass B has seen the bit of a boolean property, every further
entry mapping to the same bit must agree with the recorded value. -/
theorem sb_scan_forced :
    ∀ (src : List CliEntry) (dst : Blob) (bp sa : Nat → Bool) (dst' : Blob),
      sb_scan dst bp sa src = .ok dst' →
      ∀ s, sa s = true →
      ∀ id v, (id, v) ∈ src → pkcs11_attr2boolprop_shift id = some s →
        (cliValHead v == PKCS11_TRUE) = bp s := by
  intro src
  induction src with
  | nil => intro dst bp sa dst' h s hs id v hm; simp at hm
  | cons e rest ih =>
    obtain ⟨id0, v0⟩ := e
    intro dst bp sa dst' h s hs id v hm hshift
    simp only [sb_scan] at h
    cases hsb : sanitize_boolprop dst id0 v0 bp sa with
    | error rc' =>
      simp only [hsb] at h
      split at h
      · rename_i hrc
        subst hrc
        rcases List.mem_cons.mp hm with he | hr
        · injection he with ha hb
          subst ha
          subst hb
          rw [sanitize_boolprop_not_found_inv hsb] at hshift
          cases hshift
        · exact ih _ _ _ _ h s hs id v hr hshift
      · exact Except.noConfusion h
    | ok r =>
      obtain ⟨d2, b2, s2⟩ := r
      simp only [hsb] at h
      obtain ⟨s0, hs0, hguard, hb2, hs2⟩ := sanitize_boolprop_ok_inv hsb
      dsimp only at hb2 hs2
      have hbp0 : s0 = s → (cliValHead v0 == PKCS11_TRUE) = bp s := by
        intro hss
        subst hss
        by_contra hne
        exact hguard ⟨hs, hne⟩
      rcases List.mem_cons.mp hm with he | hr
      · injection he with ha hb
        subst ha
        subst hb
        rw [hshift] at hs0
        injection hs0 with hs0
        exact hbp0 hs0.symm
      · have hsa2 : s2 s = true := by
          rw [hs2]
          by_cases hss : s = s0
          · simp [hss]
          · simp [hss, hs]
        have hmain := ih _ _ _ _ h s hsa2 id v hr hshift
        rw [hmain, hb2]
        dsimp only
        by_cases hss : s = s0
        · rw [if_pos hss]
          exact hbp0 hss.symm
        · rw [if_neg hss]

/-- If pass B succeeds, any two entries mapping to the same boolean
property bit carry the same normalized boolean value. -/
theorem sb_scan_unique :
    ∀ (src : List CliEntry) (dst : Blob) (bp sa : Nat → Bool) (dst' : Blob),
      sb_scan dst bp sa src = .ok dst' →
      ∀ s id1 v1 id2 v2, (id1, v1) ∈ src → (id2, v2) ∈ src →
        pkcs11_attr2boolprop_shift id1 = some s →
        pkcs11_attr2boolprop_shift id2 = some s →
        (cliValHead v1 == PKCS11_TRUE) = (cliValHead v2 == PKCS11_TRUE) := by
  intro src
  induction src with
  | nil => intro dst bp sa dst' h s id1 v1 id2 v2 h1 _ _ _; simp at h1
  | cons e rest ih =>
    obtain ⟨id0, v0⟩ := e
    intro dst bp sa dst' h s id1 v1 id2 v2 hm1 hm2 hsh1 hsh2
    simp only [sb_scan] at h
    cases hsb : sanitize_boolprop dst id0 v0 bp sa with
    | error rc' =>
      simp only [hsb] at h
      split at h
      · rename_i hrc
        subst hrc
        have hnone := sanitize_boolprop_not_found_inv hsb
        rcases List.mem_cons.mp hm1 with he1 | hr1
        · injection he1 with ha hb
          subst ha
          rw [hnone] at hsh1
          cases hsh1
        · rcases List.mem_cons.mp hm2 with he2 | hr2
          · injection he2 with ha hb
            subst ha
            rw [hnone] at hsh2
            cases hsh2
          · exact ih _ _ _ _ h s id1 v1 id2 v2 hr1 hr2 hsh1 hsh2
      · exact Except.noConfusion h
    | ok r =>
      obtain ⟨d2, b2, s2⟩ := r
      simp only [hsb] at h
      obtain ⟨s0, hs0, hguard, hb2, hs2⟩ := sanitize_boolprop_ok_inv hsb
      dsimp only at hb2 hs2
      have hs2top : s2 s0 = true := by rw [hs2]; simp
      have hb2at : b2 s0 = (cliValHead v0 == PKCS11_TRUE) := by
        rw [hb2]; simp
      rcases List.mem_cons.mp hm1 with he1 | hr1 <;>
        rcases List.mem_cons.mp hm2 with he2 | hr2
      · injection he1 with h1a h1b
        injection he2 with h2a h2b
        rw [h1b, h2b]
      · injection he1 with h1a h1b
        subst h1a
        subst h1b
        rw [hsh1] at hs0
        injection hs0 with hs0
        subst hs0
        have hforced := sb_scan_forced rest _ _ _ _ h s hs2top id2 v2 hr2 hsh2
        exact (hforced.trans hb2at).symm
      · injection he2 with h2a h2b
        subst h2a
        subst h2b
        rw [hsh2] at hs0
        injection hs0 with hs0
        subst hs0
        have hforced := sb_scan_forced rest _ _ _ _ h s hs2top id1 v1 hr1 hsh1
        exact hforced.trans hb2at
      · exact ih _ _ _ _ h s id1 v1 id2 v2 hr1 hr2 hsh1 hsh2

/-- Failure of `sanitize_class_and_type` is always TEMPLATE_INCONSISTENT. -/
theorem sanitize_class_and_type_error_eq {dst : Blob} {src : List CliEntry}
    {rc : Nat} (h : sanitize_class_and_type dst src = .error rc) :
    rc = PKCS11_CKR_TEMPLATE_INCONSISTENT := by
  unfold sanitize_class_and_type at h
  cases hs : sct_scan src PKCS11_CKO_UNDEFINED_ID PKCS11_CKK_UNDEFINED_ID with
  | error rc' =>
    rw [hs] at h
    dsimp only at h
    injection h with h
    rw [← h]
    exact sct_scan_error_eq _ _ _ _ hs
  | ok p =>
    obtain ⟨c', t'⟩ := p
    rw [hs] at h
    dsimp only at h
    exact Except.noConfusion h

/-- A successful `sanitize_class_and_type` comes from a successful
pass-A scan. -/
theorem sanitize_class_and_type_ok_inv {dst : Blob} {src : List CliEntry}
    {d : Blob} (h : sanitize_class_and_type dst src = .ok d) :
    ∃ c' t', sct_scan src PKCS11_CKO_UNDEFINED_ID PKCS11_CKK_UNDEFINED_ID =
      .ok (c', t') := by
  unfold sanitize_class_and_type at h
  cases hs : sct_scan src PKCS11_CKO_UNDEFINED_ID PKCS11_CKK_UNDEFINED_ID with
  | error rc' =>
    rw [hs] at h
    dsimp only at h
    exact Except.noConfusion h
  | ok p =>
    obtain ⟨c', t'⟩ := p
    exact ⟨c', t', rfl⟩

/-- Entries that are neither class nor type leave pass A in its state. -/
theorem sct_scan_skip_all :
    ∀ (src : List CliEntry) (c t : Nat),
      (∀ e ∈ src, pkcs11_attr_is_class e.1 = 0 ∧ pkcs11_attr_is_type e.1 = 0) →
      sct_scan src c t = .ok (c, t) := by
  intro src
  induction src with
  | nil => intro c t hall; rfl
  | cons e rest ih =>
    obtain ⟨id0, v0⟩ := e
    intro c t hall
    have h0 := hall (id0, v0) (List.mem_cons_self _ _)
    simp only [sct_scan]
    rw [if_neg (by simp [h0.1]), if_neg (by simp [h0.2])]
    exact ih c t (fun e he => hall e (List.mem_cons_of_mem _ he))

/-- Entries that are not boolean properties leave pass B in its state. -/
theorem sb_scan_skip_all :
    ∀ (src : List CliEntry) (dst : Blob) (bp sa : Nat → Bool),
      (∀ e ∈ src, pkcs11_attr2boolprop_shift e.1 = none) →
      sb_scan dst bp sa src = .ok dst := by
  intro src
  induction src with
  | nil => intro dst bp sa hall; rfl
  | cons e rest ih =>
    obtain ⟨id0, v0⟩ := e
    intro dst bp sa hall
    have h0 := hall (id0, v0) (List.mem_cons_self _ _)
    simp only [sb_scan, sanitize_boolprop, h0]
    rw [if_pos trivial]
    exact ih dst bp sa (fun e he => hall e (List.mem_cons_of_mem _ he))

/-- Entries eaten by passes A and B are skipped by the final pass. -/
theorem sanitize_rest_skip_all :
    ∀ (src : List CliEntry) (recur : List CliEntry → Except Nat Blob)
      (dst : Blob),
      (∀ e ∈ src, pkcs11_attr_is_class e.1 ≠ 0 ∨ pkcs11_attr_is_type e.1 ≠ 0 ∨
        (pkcs11_attr2boolprop_shift e.1).isSome) →
      sanitize_rest_with recur dst src = .ok dst := by
  intro src
  induction src with
  | nil => intro recur dst hall; rfl
  | cons e rest ih =>
    obtain ⟨id0, v0⟩ := e
    intro recur dst hall
    simp only [sanitize_rest_with]
    rw [if_pos (hall (id0, v0) (List.mem_cons_self _ _))]
    exact ih recur dst (fun e he => hall e (List.mem_cons_of_mem _ he))

/-- A boolean property id is neither the class nor the type id. -/
theorem boolprop_id_not_class_type {id s : Nat}
    (h : pkcs11_attr2boolprop_shift id = some s) :
    pkcs11_attr_is_class id = 0 ∧ pkcs11_attr_is_type id = 0 := by
  unfold pkcs11_attr2boolprop_shift at h
  cases hf : boolprop_shift_table.find? (fun e => e.1 == id) with
  | none => rw [hf] at h; cases h
  | some e =>
    have hm := List.mem_of_find?_eq_some hf
    have hp := List.find?_some hf
    have hid : e.1 = id := by simpa using hp
    have hall : ∀ x ∈ boolprop_shift_table,
        pkcs11_attr_is_class x.1 = 0 ∧ pkcs11_attr_is_type x.1 = 0 := by decide
    rw [← hid]
    exact hall e hm

/-- Agreeing duplicated class entries scan to their common value. -/
theorem sct_scan_class_replicate :
    ∀ (m : Nat) (cls t : Nat), cls < 4294967296 →
      sct_scan (List.replicate m
          (PKCS11_CKA_CLASS, CliVal.raw (bytes_of_u32 cls))) cls t =
        .ok (cls, t) := by
  intro m
  induction m with
  | zero => intro cls t h; rfl
  | succ n ih =>
    intro cls t h
    have hround : cliValU32 (CliVal.raw (bytes_of_u32 cls)) = cls := by
      rw [cliValU32_raw]
      exact u32_of_bytes_of_u32 h
    simp only [List.replicate_succ, sct_scan]
    rw [if_pos (by decide : pkcs11_attr_is_class PKCS11_CKA_CLASS ≠ 0)]
    rw [if_neg (by simp [cliValSize_raw, bytes_of_u32, pkcs11_attr_is_class])]
    rw [if_neg (by rw [hround]; exact fun hc => hc.2 rfl)]
    rw [hround]
    exact ih cls t h

/-- Agreeing duplicated boolean property entries leave pass B silent
once the bit has been recorded with their value. -/
theorem sb_scan_boolprop_replicate :
    ∀ (m : Nat) (dst : Blob) (bp sa : Nat → Bool) (id s : Nat) (v : CliVal),
      pkcs11_attr2boolprop_shift id = some s →
      sa s = true → bp s = (cliValHead v == PKCS11_TRUE) →
      sb_scan dst bp sa (List.replicate m (id, v)) = .ok dst := by
  intro m
  induction m with
  | zero => intro dst bp sa id s v hsh hsa hbp; rfl
  | succ n ih =>
    intro dst bp sa id s v hsh hsa hbp
    simp only [List.replicate_succ, sb_scan, sanitize_boolprop, hsh]
    rw [if_neg (not_le.mpr (attr2boolprop_shift_lt hsh))]
    rw [if_neg (fun hc => hc.2 (by rw [hbp]))]
    dsimp only
    rw [if_pos hsa]
    exact ih dst _ _ id s v hsh (by simp) (by simp)

theorem pib_shape {out temp : Blob} {a : Nat} {out2 : Blob}
    (h : pkcs11_import_object_boolprop out temp a = .ok out2) :
    ∃ v, out2 = add_attribute out a v := by
  unfold pkcs11_import_object_boolprop at h
  split at h
  · split at h
    · injection h with h
      exact ⟨_, h.symm⟩
    · split at h
      · injection h with h
        exact ⟨_, h.symm⟩
      · cases h
  · split at h
    · injection h with h
      exact ⟨_, h.symm⟩
    · cases h

theorem smb_none {l : List Nat} : ∀ {out temp out2 : Blob} {j : Nat},
    set_mandatory_boolprops out temp l = .ok out2 →
    j ∉ l → get_attribute_ptr out j = none →
    get_attribute_ptr out2 j = none := by
  induction l with
  | nil =>
    intro out temp out2 j h _ h0
    injection h with h
    rw [← h]
    exact h0
  | cons a rest ih =>
    intro out temp out2 j h hj h0
    simp only [set_mandatory_boolprops] at h
    cases hstep : pkcs11_import_object_boolprop out temp a with
    | error e => rw [hstep] at h; cases h
    | ok out1 =>
      rw [hstep] at h
      dsimp only at h
      obtain ⟨v, rfl⟩ := pib_shape hstep
      have hja : a ≠ j := fun he => hj (he ▸ List.mem_cons_self a rest)
      exact ih h (fun hm => hj (List.mem_cons_of_mem _ hm))
        ((get_attribute_ptr_add_ne v hja).trans h0)

theorem sma_none {l : List Nat} : ∀ {out temp : Blob} {j : Nat},
    j ∉ l → get_attribute_ptr out j = none →
    get_attribute_ptr (set_mandatory_attributes out temp l) j = none := by
  induction l with
  | nil => intro out temp j _ h0; exact h0
  | cons a rest ih =>
    intro out temp j hj h0
    simp only [set_mandatory_attributes]
    have hja : a ≠ j := fun he => hj (he ▸ List.mem_cons_self a rest)
    exact ih (fun hm => hj (List.mem_cons_of_mem _ hm))
      ((get_attribute_ptr_add_ne _ hja).trans h0)

theorem soa_none {l : List Nat} : ∀ {out temp : Blob} {j : Nat},
    j ∉ l → get_attribute_ptr out j = none →
    get_attribute_ptr (set_optional_attributes out temp l) j = none := by
  induction l with
  | nil => intro out temp j _ h0; exact h0
  | cons a rest ih =>
    intro out temp j hj h0
    simp only [set_optional_attributes]
    have hja : a ≠ j := fun he => hj (he ▸ List.mem_cons_self a rest)
    have hrest : j ∉ rest := fun hm => hj (List.mem_cons_of_mem _ hm)
    cases hg : get_attribute_ptr temp a with
    | some v =>
      dsimp only
      exact ih hrest ((get_attribute_ptr_add_ne _ hja).trans h0)
    | none =>
      dsimp only
      exact ih hrest h0

theorem create_storage_attributes_none {temp out : Blob} {j : Nat}
    (h : create_storage_attributes temp = .ok out)
    (h1 : j ≠ PKCS11_CKA_CLASS)
    (h2 : j ∉ pkcs11_any_object_boolprops)
    (h3 : j ∉ pkcs11_any_object_optional) :
    get_attribute_ptr out j = none := by
  simp only [create_storage_attributes] at h
  split at h
  · cases h
  · cases hs : set_mandatory_boolprops
        (add_attribute [] PKCS11_CKA_CLASS (bytes_of_u32 (get_class temp)))
        temp pkcs11_any_object_boolprops with
    | error e => rw [hs] at h; cases h
    | ok out1 =>
      rw [hs] at h
      dsimp only at h
      injection h with h
      rw [← h]
      refine soa_none h3 (smb_none hs h2 ?_)
      rw [get_attribute_ptr_add_ne _ (fun he => h1 he.symm)]
      rfl

theorem create_genkey_attributes_none {temp out : Blob} {j : Nat}
    (h : create_genkey_attributes temp = .ok out)
    (h1 : j ≠ PKCS11_CKA_CLASS) (h2 : j ∉ pkcs11_any_object_boolprops)
    (h3 : j ∉ pkcs11_any_object_optional)
    (h4 : j ≠ PKCS11_CKA_KEY_TYPE) (h5 : j ∉ pkcs11_any_key_boolprops)
    (h6 : j ∉ pkcs11_any_key_optional) :
    get_attribute_ptr out j = none := by
  simp only [create_genkey_attributes] at h
  cases hst : create_storage_attributes temp with
  | error e => rw [hst] at h; cases h
  | ok out0 =>
    rw [hst] at h
    dsimp only at h
    split at h
    · cases h
    · cases hs : set_mandatory_boolprops
          (add_attribute out0 PKCS11_CKA_KEY_TYPE
            (bytes_of_u32 (get_type temp)))
          temp pkcs11_any_key_boolprops with
      | error e => rw [hs] at h; cases h
      | ok out1 =>
        rw [hs] at h
        dsimp only at h
        injection h with h
        rw [← h]
        refine soa_none h6 (smb_none hs h5 ?_)
        rw [get_attribute_ptr_add_ne _ (fun he => h4 he.symm)]
        exact create_storage_attributes_none hst h1 h2 h3

theorem create_data_attributes_none {temp out : Blob} {j : Nat}
    (h : create_data_attributes temp = .ok out)
    (h1 : j ≠ PKCS11_CKA_CLASS) (h2 : j ∉ pkcs11_any_object_boolprops)
    (h3 : j ∉ pkcs11_any_object_optional)
    (h4 : j ∉ pkcs11_raw_data_optional) :
    get_attribute_ptr out j = none := by
  simp only [create_data_attributes] at h
  cases hst : create_storage_attributes temp with
  | error e => rw [hst] at h; cases h
  | ok out0 =>
    rw [hst] at h
    dsimp only at h
    injection h with h
    rw [← h]
    exact soa_none h4 (create_storage_attributes_none hst h1 h2 h3)

theorem create_symm_key_attributes_none {temp out : Blob} {j : Nat}
    (h : create_symm_key_attributes temp = .ok out)
    (h1 : j ≠ PKCS11_CKA_CLASS) (h2 : j ∉ pkcs11_any_object_boolprops)
    (h3 : j ∉ pkcs11_any_object_optional)
    (h4 : j ≠ PKCS11_CKA_KEY_TYPE) (h5 : j ∉ pkcs11_any_key_boolprops)
    (h6 : j ∉ pkcs11_any_key_optional)
    (h7 : j ∉ pkcs11_symm_key_boolprops)
    (h8 : j ∉ pkcs11_symm_key_optional) :
    get_attribute_ptr out j = none := by
  simp only [create_symm_key_attributes] at h
  cases hg : create_genkey_attributes temp with
  | error e => rw [hg] at h; cases h
  | ok out0 =>
    rw [hg] at h
    dsimp only at h
    split at h
    · cases hs : set_mandatory_boolprops out0 temp
          pkcs11_symm_key_boolprops with
      | error e => rw [hs] at h; cases h
      | ok out1 =>
        rw [hs] at h
        dsimp only at h
        injection h with h
        rw [← h]
        exact soa_none h8 (smb_none hs h7
          (create_genkey_attributes_none hg h1 h2 h3 h4 h5 h6))
    · cases h

theorem create_pub_key_attributes_none {temp out : Blob} {j : Nat}
    (h : create_pub_key_attributes temp = .ok out)
    (h1 : j ≠ PKCS11_CKA_CLASS) (h2 : j ∉ pkcs11_any_object_boolprops)
    (h3 : j ∉ pkcs11_any_object_optional)
    (h4 : j ≠ PKCS11_CKA_KEY_TYPE) (h5 : j ∉ pkcs11_any_key_boolprops)
    (h6 : j ∉ pkcs11_any_key_optional)
    (h7 : j ∉ pkcs11_public_key_boolprops)
    (h8 : j ∉ pkcs11_public_key_mandated)
    (h9 : j ∉ pkcs11_public_key_optional)
    (h10 : j ∉ pkcs11_rsa_public_key_mandated)
    (h11 : j ∉ pkcs11_rsa_public_key_optional)
    (h12 : j ∉ pkcs11_ec_public_key_mandated)
    (h13 : j ∉ pkcs11_ec_public_key_optional) :
    get_attribute_ptr out j = none := by
  simp only [create_pub_key_attributes] at h
  cases hg : create_genkey_attributes temp with
  | error e => rw [hg] at h; cases h
  | ok out0 =>
    rw [hg] at h
    dsimp only at h
    cases hs : set_mandatory_boolprops out0 temp
        pkcs11_public_key_boolprops with
    | error e => rw [hs] at h; cases h
    | ok out2 =>
      rw [hs] at h
      dsimp only at h
      have hbase : get_attribute_ptr (set_optional_attributes
          (set_mandatory_attributes out2 temp pkcs11_public_key_mandated)
          temp pkcs11_public_key_optional) j = none :=
        soa_none h9 (sma_none h8 (smb_none hs h7
          (create_genkey_attributes_none hg h1 h2 h3 h4 h5 h6)))
      split at h
      · injection h with h
        rw [← h]
        exact soa_none h11 (sma_none h10 hbase)
      · split at h
        · injection h with h
          rw [← h]
          exact soa_none h13 (sma_none h12 hbase)
        · cases h

theorem create_priv_key_attributes_none {temp out : Blob} {j : Nat}
    (h : create_priv_key_attributes temp = .ok out)
    (h1 : j ≠ PKCS11_CKA_CLASS) (h2 : j ∉ pkcs11_any_object_boolprops)
    (h3 : j ∉ pkcs11_any_object_optional)
    (h4 : j ≠ PKCS11_CKA_KEY_TYPE) (h5 : j ∉ pkcs11_any_key_boolprops)
    (h6 : j ∉ pkcs11_any_key_optional)
    (h7 : j ∉ pkcs11_private_key_boolprops)
    (h8 : j ∉ pkcs11_private_key_mandated)
    (h9 : j ∉ pkcs11_private_key_optional)
    (h10 : j ∉ pkcs11_rsa_private_key_optional)
    (h11 : j ∉ pkcs11_ec_private_key_mandated)
    (h12 : j ∉ pkcs11_ec_private_key_optional) :
    get_attribute_ptr out j = none := by
  simp only [create_priv_key_attributes] at h
  cases hg : create_genkey_attributes temp with
  | error e => rw [hg] at h; cases h
  | ok out0 =>
    rw [hg] at h
    dsimp only at h
    cases hs : set_mandatory_boolprops out0 temp
        pkcs11_private_key_boolprops with
    | error e => rw [hs] at h; cases h
    | ok out2 =>
      rw [hs] at h
      dsimp only at h
      have hbase : get_attribute_ptr (set_optional_attributes
          (set_mandatory_attributes out2 temp pkcs11_private_key_mandated)
          temp pkcs11_private_key_optional) j = none :=
        soa_none h9 (sma_none h8 (smb_none hs h7
          (create_genkey_attributes_none hg h1 h2 h3 h4 h5 h6)))
      split at h
      · injection h with h
        rw [← h]
        exact soa_none h10 hbase
      · split at h
        · injection h with h
          rw [← h]
          exact soa_none h12 (sma_none h11 hbase)
        · cases h

theorem c1_core {attrs0 : Blob} {bL a n : Nat} {attrs : Blob}
    (hAS0 : get_attribute_ptr attrs0 PKCS11_CKA_ALWAYS_SENSITIVE = none)
    (hNE0 : get_attribute_ptr attrs0 PKCS11_CKA_NEVER_EXTRACTABLE = none)
    (heq : attrs = add_attribute (add_attribute (add_attribute attrs0
        PKCS11_CKA_LOCAL [bL]) PKCS11_CKA_ALWAYS_SENSITIVE [a])
        PKCS11_CKA_NEVER_EXTRACTABLE [n])
    (ha : a ≠ 0 → get_bool (add_attribute attrs0 PKCS11_CKA_LOCAL [bL])
        PKCS11_CKA_SENSITIVE = true)
    (hn : n ≠ 0 → get_bool (add_attribute attrs0 PKCS11_CKA_LOCAL [bL])
        PKCS11_CKA_EXTRACTABLE = false) :
    (get_bool attrs PKCS11_CKA_ALWAYS_SENSITIVE = true →
      get_bool attrs PKCS11_CKA_SENSITIVE = true) ∧
    (get_bool attrs PKCS11_CKA_NEVER_EXTRACTABLE = true →
      get_bool attrs PKCS11_CKA_EXTRACTABLE = false) := by
  subst heq
  have hBAS : get_attribute_ptr (add_attribute attrs0 PKCS11_CKA_LOCAL [bL])
      PKCS11_CKA_ALWAYS_SENSITIVE = none := by
    rw [get_attribute_ptr_add_ne [bL] (show PKCS11_CKA_LOCAL ≠
        PKCS11_CKA_ALWAYS_SENSITIVE by decide)]
    exact hAS0
  have hXNE : get_attribute_ptr (add_attribute (add_attribute attrs0
      PKCS11_CKA_LOCAL [bL]) PKCS11_CKA_ALWAYS_SENSITIVE [a])
      PKCS11_CKA_NEVER_EXTRACTABLE = none := by
    rw [get_attribute_ptr_add_ne [a] (show PKCS11_CKA_ALWAYS_SENSITIVE ≠
        PKCS11_CKA_NEVER_EXTRACTABLE by decide)]
    rw [get_attribute_ptr_add_ne [bL] (show PKCS11_CKA_LOCAL ≠
        PKCS11_CKA_NEVER_EXTRACTABLE by decide)]
    exact hNE0
  constructor
  · intro ht
    rw [get_bool_add_ne [n] (show PKCS11_CKA_NEVER_EXTRACTABLE ≠
        PKCS11_CKA_ALWAYS_SENSITIVE by decide)] at ht
    simp only [get_bool] at ht
    rw [get_attribute_ptr_add_self [a] hBAS] at ht
    simp only [List.headD_cons] at ht
    have hane : a ≠ 0 := by
      intro h0
      rw [h0] at ht
      exact absurd ht (by decide)
    rw [get_bool_add_ne [n] (show PKCS11_CKA_NEVER_EXTRACTABLE ≠
        PKCS11_CKA_SENSITIVE by decide)]
    rw [get_bool_add_ne [a] (show PKCS11_CKA_ALWAYS_SENSITIVE ≠
        PKCS11_CKA_SENSITIVE by decide)]
    exact ha hane
  · intro ht
    simp only [get_bool] at ht
    rw [get_attribute_ptr_add_self [n] hXNE] at ht
    simp only [List.headD_cons] at ht
    have hnne : n ≠ 0 := by
      intro h0
      rw [h0] at ht
      exact absurd ht (by decide)
    rw [get_bool_add_ne [n] (show PKCS11_CKA_NEVER_EXTRACTABLE ≠
        PKCS11_CKA_EXTRACTABLE by decide)]
    rw [get_bool_add_ne [a] (show PKCS11_CKA_ALWAYS_SENSITIVE ≠
        PKCS11_CKA_EXTRACTABLE by decide)]
    exact hn hnne

/-- C1: for every template, parent and creating function (IMPORT,
GENERATE, GENERATE_PAIR, DERIVE, COPY), an attribute list returned
successfully by `create_attributes_from_template` whose class is
SECRET_KEY, PRIVATE_KEY or PUBLIC_KEY satisfies
`get_bool ALWAYS_SENSITIVE → get_bool SENSITIVE` and
`get_bool NEVER_EXTRACTABLE → ¬ get_bool EXTRACTABLE`. -/
theorem c1_always_sensitive_never_extractable
    (temp parent : Blob) (func : ProcessingFunc) (attrs : Blob)
    (hf : func = .IMPORT ∨ func = .GENERATE ∨ func = .GENERATE_PAIR ∨
          func = .DERIVE ∨ func = .COPY)
    (h : create_attributes_from_template temp parent func = .ok attrs)
    (hc : get_class attrs = PKCS11_CKO_SECRET_KEY ∨
          get_class attrs = PKCS11_CKO_PRIVATE_KEY ∨
          get_class attrs = PKCS11_CKO_PUBLIC_KEY) :
    (get_bool attrs PKCS11_CKA_ALWAYS_SENSITIVE = true →
      get_bool attrs PKCS11_CKA_SENSITIVE = true) ∧
    (get_bool attrs PKCS11_CKA_NEVER_EXTRACTABLE = true →
      get_bool attrs PKCS11_CKA_EXTRACTABLE = false) := by
  simp only [create_attributes_from_template] at h
  split at h
  · cases h
  · cases hbuilt : (if get_class temp = PKCS11_CKO_DATA then
        create_data_attributes temp
      else if get_class temp = PKCS11_CKO_SECRET_KEY then
        create_symm_key_attributes temp
      else if get_class temp = PKCS11_CKO_PUBLIC_KEY then
        create_pub_key_attributes temp
      else if get_class temp = PKCS11_CKO_PRIVATE_KEY then
        create_priv_key_attributes temp
      else Except.error (CRet.ret PKCS11_CKR_TEMPLATE_INCONSISTENT)) with
    | error e =>
      rw [hbuilt] at h
      dsimp only at h
      cases h
    | ok attrs0 =>
      rw [hbuilt] at h
      dsimp only at h
      have hnone :
          get_attribute_ptr attrs0 PKCS11_CKA_ALWAYS_SENSITIVE = none ∧
          get_attribute_ptr attrs0 PKCS11_CKA_NEVER_EXTRACTABLE = none := by
        split at hbuilt
        · exact ⟨create_data_attributes_none hbuilt (by decide) (by decide)
              (by decide) (by decide),
            create_data_attributes_none hbuilt (by decide) (by decide)
              (by decide) (by decide)⟩
        · split at hbuilt
          · exact ⟨create_symm_key_attributes_none hbuilt (by decide)
                (by decide) (by decide) (by decide) (by decide) (by decide)
                (by decide) (by decide),
              create_symm_key_attributes_none hbuilt (by decide) (by decide)
                (by decide) (by decide) (by decide) (by decide) (by decide)
                (by decide)⟩
          · split at hbuilt
            · exact ⟨create_pub_key_attributes_none hbuilt (by decide)
                  (by decide) (by decide) (by decide) (by decide) (by decide)
                  (by decide) (by decide) (by decide) (by decide) (by decide)
                  (by decide) (by decide),
                create_pub_key_attributes_none hbuilt (by decide) (by decide)
                  (by decide) (by decide) (by decide) (by decide) (by decide)
                  (by decide) (by decide) (by decide) (by decide) (by decide)
                  (by decide)⟩
            · split at hbuilt
              · exact ⟨create_priv_key_attributes_none hbuilt (by decide)
                    (by decide) (by decide) (by decide) (by decide)
                    (by decide) (by decide) (by decide) (by decide)
                    (by decide) (by decide) (by decide),
                  create_priv_key_attributes_none hbuilt (by decide)
                    (by decide) (by decide) (by decide) (by decide)
                    (by decide) (by decide) (by decide) (by decide)
                    (by decide) (by decide) (by decide)⟩
              · cases hbuilt
      obtain ⟨hAS0, hNE0⟩ := hnone
      rcases hf with rfl | rfl | rfl | rfl | rfl
      · dsimp only at h
        split at h
        · injection h with h
          refine c1_core hAS0 hNE0 h.symm ?_ ?_
          · intro h0
            exact absurd rfl h0
          · intro h0
            exact absurd rfl h0
        · rename_i hk
          injection h with h
          rw [← h] at hc
          exact absurd hc hk
      · dsimp only at h
        split at h
        · injection h with h
          refine c1_core hAS0 hNE0 h.symm ?_ ?_
          · intro hane
            rcases Bool.eq_false_or_eq_true (get_bool (add_attribute attrs0
                PKCS11_CKA_LOCAL [1]) PKCS11_CKA_SENSITIVE) with hb | hb
            · exact hb
            · rw [hb] at hane
              simp at hane
          · intro hnne
            rcases Bool.eq_false_or_eq_true (get_bool (add_attribute attrs0
                PKCS11_CKA_LOCAL [1]) PKCS11_CKA_EXTRACTABLE) with hb | hb
            · rw [hb] at hnne
              simp at hnne
            · exact hb
        · rename_i hk
          injection h with h
          rw [← h] at hc
          exact absurd hc hk
      · dsimp only at h
        split at h
        · injection h with h
          refine c1_core hAS0 hNE0 h.symm ?_ ?_
          · intro h0
            exact absurd rfl h0
          · intro h0
            exact absurd rfl h0
        · rename_i hk
          injection h with h
          rw [← h] at hc
          exact absurd hc hk
      · dsimp only at h
        split at h
        · injection h with h
          refine c1_core hAS0 hNE0 h.symm ?_ ?_
          · intro hane
            rcases Bool.eq_false_or_eq_true (get_bool (add_attribute attrs0
                PKCS11_CKA_LOCAL [0]) PKCS11_CKA_SENSITIVE) with hb | hb
            · exact hb
            · rw [hb] at hane
              simp at hane
          · intro hnne
            rcases Bool.eq_false_or_eq_true (get_bool (add_attribute attrs0
                PKCS11_CKA_LOCAL [0]) PKCS11_CKA_EXTRACTABLE) with hb | hb
            · rw [hb] at hnne
              simp at hnne
            · exact hb
        · rename_i hk
          injection h with h
          rw [← h] at hc
          exact absurd hc hk
      · dsimp only at h
        rcases Bool.eq_false_or_eq_true (get_bool parent PKCS11_CKA_LOCAL)
          with hL | hL
        · simp only [hL, eq_self_iff_true, if_true, Bool.false_eq_true,
            if_false] at h
          split at h
          · injection h with h
            refine c1_core hAS0 hNE0 h.symm ?_ ?_
            · intro hane
              rcases Bool.eq_false_or_eq_true (get_bool (add_attribute attrs0
                  PKCS11_CKA_LOCAL [1]) PKCS11_CKA_SENSITIVE) with hb | hb
              · exact hb
              · rw [hb] at hane
                simp at hane
            · intro hnne
              rcases Bool.eq_false_or_eq_true (get_bool (add_attribute attrs0
                  PKCS11_CKA_LOCAL [1]) PKCS11_CKA_EXTRACTABLE) with hb | hb
              · rw [hb] at hnne
                simp at hnne
              · exact hb
          · rename_i hk
            injection h with h
            rw [← h] at hc
            exact absurd hc hk
        · simp only [hL, eq_self_iff_true, if_true, Bool.false_eq_true,
            if_false] at h
          split at h
          · injection h with h
            refine c1_core hAS0 hNE0 h.symm ?_ ?_
            · intro hane
              rcases Bool.eq_false_or_eq_true (get_bool (add_attribute attrs0
                  PKCS11_CKA_LOCAL [0]) PKCS11_CKA_SENSITIVE) with hb | hb
              · exact hb
              · rw [hb] at hane
                simp at hane
            · intro hnne
              rcases Bool.eq_false_or_eq_true (get_bool (add_attribute attrs0
                  PKCS11_CKA_LOCAL [0]) PKCS11_CKA_EXTRACTABLE) with hb | hb
              · rw [hb] at hnne
                simp at hnne
              · exact hb
          · rename_i hk
            injection h with h
            rw [← h] at hc
            exact absurd hc hk

/-- C1 witness: the AES import scenario builds an object of class
SECRET_KEY for which both implications hold. -/
theorem c1_always_sensitive_witness :
    (get_bool c1_example_object PKCS11_CKA_ALWAYS_SENSITIVE = true →
      get_bool c1_example_object PKCS11_CKA_SENSITIVE = true) ∧
    (get_bool c1_example_object PKCS11_CKA_NEVER_EXTRACTABLE = true →
      get_bool c1_example_object PKCS11_CKA_EXTRACTABLE = false) :=
  c1_always_sensitive_never_extractable c1_example_template [] .IMPORT
    c1_example_object (Or.inl rfl) rfl (Or.inl rfl)

/-- C4 (amended): the sanitizer rejects with TEMPLATE_INCONSISTENT any
raw client template in which CLASS, KEY_TYPE or a boolean-property
attribute appears with conflicting values (for class and type: two
well-sized entries with distinct values other than the UNDEFINED_ID
sentinel; for boolean properties: two entries of the same property with
distinct normalized boolean values); when such duplicates agree, a
single canonical entry is emitted. Other attribute ids are copied
verbatim even when duplicated. -/
theorem c4_sanitizer_duplicate_handling :
    (∀ (fuel : Nat) (src : List CliEntry) (b1 b2 : List Nat),
      (PKCS11_CKA_CLASS, CliVal.raw b1) ∈ src →
      (PKCS11_CKA_CLASS, CliVal.raw b2) ∈ src →
      b1.length = 4 → b2.length = 4 →
      u32_of_bytes b1 ≠ PKCS11_UNDEFINED_ID →
      u32_of_bytes b2 ≠ PKCS11_UNDEFINED_ID →
      u32_of_bytes b1 ≠ u32_of_bytes b2 →
      sanitize_client_object (fuel + 1) src =
        .error PKCS11_CKR_TEMPLATE_INCONSISTENT) ∧
    (∀ (fuel : Nat) (src : List CliEntry) (b1 b2 : List Nat),
      (PKCS11_CKA_KEY_TYPE, CliVal.raw b1) ∈ src →
      (PKCS11_CKA_KEY_TYPE, CliVal.raw b2) ∈ src →
      b1.length = 4 → b2.length = 4 →
      u32_of_bytes b1 ≠ PKCS11_UNDEFINED_ID →
      u32_of_bytes b2 ≠ PKCS11_UNDEFINED_ID →
      u32_of_bytes b1 ≠ u32_of_bytes b2 →
      sanitize_client_object (fuel + 1) src =
        .error PKCS11_CKR_TEMPLATE_INCONSISTENT) ∧
    (∀ (fuel : Nat) (src : List CliEntry) (id1 : Nat) (v1 : CliVal)
       (id2 : Nat) (v2 : CliVal) (s : Nat),
      (id1, v1) ∈ src → (id2, v2) ∈ src →
      pkcs11_attr2boolprop_shift id1 = some s →
      pkcs11_attr2boolprop_shift id2 = some s →
      (cliValHead v1 == PKCS11_TRUE) ≠ (cliValHead v2 == PKCS11_TRUE) →
      sanitize_client_object (fuel + 1) src =
        .error PKCS11_CKR_TEMPLATE_INCONSISTENT) ∧
    (∀ (fuel n cls : Nat), cls ≠ PKCS11_CKO_UNDEFINED_ID →
      cls < 4294967296 →
      sanitize_client_object (fuel + 1)
        (List.replicate (n + 1)
          (PKCS11_CKA_CLASS, CliVal.raw (bytes_of_u32 cls))) =
        .ok [(PKCS11_CKA_CLASS, bytes_of_u32 cls)]) ∧
    (∀ (fuel n id s b : Nat), pkcs11_attr2boolprop_shift id = some s →
      b = 0 ∨ b = 1 →
      sanitize_client_object (fuel + 1)
        (List.replicate (n + 1) (id, CliVal.raw [b])) =
        .ok [(PKCS11_BOOLPROPS_BASE + s, [b])]) := by
  refine ⟨?_, ?_, ?_, ?_, ?_⟩
  · intro fuel src b1 b2 hm1 hm2 hl1 hl2 hu1 hu2 hne
    simp only [sanitize_client_object]
    cases hA : sanitize_class_and_type [] src with
    | error rc =>
      dsimp only
      rw [sanitize_class_and_type_error_eq hA]
    | ok dst =>
      obtain ⟨c', t', hs⟩ := sanitize_class_and_type_ok_inv hA
      exact absurd
        (sct_scan_class_unique src _ _ _ _ hs b1 b2 hm1 hm2 hl1 hl2 hu1 hu2)
        hne
  · intro fuel src b1 b2 hm1 hm2 hl1 hl2 hu1 hu2 hne
    simp only [sanitize_client_object]
    cases hA : sanitize_class_and_type [] src with
    | error rc =>
      dsimp only
      rw [sanitize_class_and_type_error_eq hA]
    | ok dst =>
      obtain ⟨c', t', hs⟩ := sanitize_class_and_type_ok_inv hA
      exact absurd
        (sct_scan_type_unique src _ _ _ _ hs b1 b2 hm1 hm2 hl1 hl2 hu1 hu2)
        hne
  · intro fuel src id1 v1 id2 v2 s hm1 hm2 hsh1 hsh2 hne
    simp only [sanitize_client_object]
    cases hA : sanitize_class_and_type [] src with
    | error rc =>
      dsimp only
      rw [sanitize_class_and_type_error_eq hA]
    | ok dst =>
      dsimp only
      cases hB : sanitize_boolprops dst src with
      | error rc =>
        dsimp only
        unfold sanitize_boolprops at hB
        rw [sb_scan_error_eq _ _ _ _ _ hB]
      | ok dst2 =>
        unfold sanitize_boolprops at hB
        exact absurd
          (sb_scan_unique src _ _ _ _ hB s id1 v1 id2 v2 hm1 hm2 hsh1 hsh2)
          hne
  · intro fuel n cls hcls hlt
    have hround : cliValU32 (CliVal.raw (bytes_of_u32 cls)) = cls := by
      rw [cliValU32_raw]
      exact u32_of_bytes_of_u32 hlt
    simp only [sanitize_client_object]
    have hA : sanitize_class_and_type []
        (List.replicate (n + 1)
          (PKCS11_CKA_CLASS, CliVal.raw (bytes_of_u32 cls))) =
        .ok [(PKCS11_CKA_CLASS, bytes_of_u32 cls)] := by
      unfold sanitize_class_and_type
      have hscan : sct_scan
          (List.replicate (n + 1)
            (PKCS11_CKA_CLASS, CliVal.raw (bytes_of_u32 cls)))
          PKCS11_CKO_UNDEFINED_ID PKCS11_CKK_UNDEFINED_ID =
          .ok (cls, PKCS11_CKK_UNDEFINED_ID) := by
        simp only [List.replicate_succ, sct_scan]
        rw [if_pos (by decide : pkcs11_attr_is_class PKCS11_CKA_CLASS ≠ 0)]
        rw [if_neg (by simp [cliValSize_raw, bytes_of_u32,
              pkcs11_attr_is_class])]
        rw [if_neg (fun hc => hc.1 rfl)]
        rw [hround]
        exact sct_scan_class_replicate n cls _ hlt
      rw [hscan]
      dsimp only
      rw [if_pos hcls]
      rw [if_neg (fun hh => hh rfl)]
      rfl
    rw [hA]
    dsimp only
    have hB : sanitize_boolprops [(PKCS11_CKA_CLASS, bytes_of_u32 cls)]
        (List.replicate (n + 1)
          (PKCS11_CKA_CLASS, CliVal.raw (bytes_of_u32 cls))) =
        .ok [(PKCS11_CKA_CLASS, bytes_of_u32 cls)] := by
      unfold sanitize_boolprops
      apply sb_scan_skip_all
      intro e he
      rw [List.eq_of_mem_replicate he]
      show pkcs11_attr2boolprop_shift PKCS11_CKA_CLASS = none
      decide
    rw [hB]
    dsimp only
    apply sanitize_rest_skip_all
    intro e he
    rw [List.eq_of_mem_replicate he]
    left
    show pkcs11_attr_is_class PKCS11_CKA_CLASS ≠ 0
    decide
  · intro fuel n id s b hsh hb
    have hct := boolprop_id_not_class_type hsh
    simp only [sanitize_client_object]
    have hA : sanitize_class_and_type []
        (List.replicate (n + 1) (id, CliVal.raw [b])) = .ok [] := by
      unfold sanitize_class_and_type
      rw [sct_scan_skip_all _ _ _
        (fun e he => by rw [List.eq_of_mem_replicate he]; exact hct)]
      dsimp only
      rw [if_neg (fun hh => hh rfl), if_neg (fun hh => hh rfl)]
    rw [hA]
    dsimp only
    have hbyte :
        (if (cliValHead (CliVal.raw [b]) == PKCS11_TRUE) = true
         then 1 else 0) = b := by
      rcases hb with rfl | rfl <;> rfl
    have hB : sanitize_boolprops []
        (List.replicate (n + 1) (id, CliVal.raw [b])) =
        .ok [(PKCS11_BOOLPROPS_BASE + s, [b])] := by
      unfold sanitize_boolprops
      simp only [List.replicate_succ, sb_scan, sanitize_boolprop, hsh]
      rw [if_neg (not_le.mpr (attr2boolprop_shift_lt hsh))]
      rw [if_neg (fun hc => absurd hc.1 (by simp))]
      dsimp only
      rw [if_neg (fun hh => Bool.noConfusion hh)]
      rw [hbyte]
      exact sb_scan_boolprop_replicate n _ _ _ id s _ hsh (by simp) (by simp)
    rw [hB]
    dsimp only
    apply sanitize_rest_skip_all
    intro e he
    rw [List.eq_of_mem_replicate he]
    right
    right
    rw [hsh]
    rfl

/-- C4 counterexample: a template duplicating the LABEL attribute with
two distinct values is accepted and both entries are emitted verbatim,
so a duplicated id with distinct values does not imply
TEMPLATE_INCONSISTENT. -/
theorem c4_duplicate_label_accepted :
    sanitize_client_object 1 c4_counter_template =
      .ok [(PKCS11_CKA_CLASS, bytes_of_u32 PKCS11_CKO_DATA),
           (PKCS11_CKA_LABEL, [65]), (PKCS11_CKA_LABEL, [66])] := rfl

/-- C4 witness: conflicting CLASS values (SECRET_KEY then PUBLIC_KEY)
are rejected; agreeing duplicates of CLASS and of SENSITIVE collapse to
one canonical entry. -/
theorem c4_sanitizer_duplicate_witness :
    sanitize_client_object 1
      [(PKCS11_CKA_CLASS, .raw (bytes_of_u32 PKCS11_CKO_SECRET_KEY)),
       (PKCS11_CKA_CLASS, .raw (bytes_of_u32 PKCS11_CKO_PUBLIC_KEY))] =
      .error PKCS11_CKR_TEMPLATE_INCONSISTENT ∧
    sanitize_client_object 1
      (List.replicate 2
        (PKCS11_CKA_CLASS, CliVal.raw (bytes_of_u32 PKCS11_CKO_SECRET_KEY))) =
      .ok [(PKCS11_CKA_CLASS, bytes_of_u32 PKCS11_CKO_SECRET_KEY)] ∧
    sanitize_client_object 1
      (List.replicate 2 (PKCS11_CKA_SENSITIVE, CliVal.raw [1])) =
      .ok [(PKCS11_BOOLPROPS_BASE + 3, [1])] :=
  ⟨c4_sanitizer_duplicate_handling.1 0
      [(PKCS11_CKA_CLASS, .raw (bytes_of_u32 PKCS11_CKO_SECRET_KEY)),
       (PKCS11_CKA_CLASS, .raw (bytes_of_u32 PKCS11_CKO_PUBLIC_KEY))]
      (bytes_of_u32 PKCS11_CKO_SECRET_KEY)
      (bytes_of_u32 PKCS11_CKO_PUBLIC_KEY)
      (by simp) (by simp) (by decide) (by decide) (by decide) (by decide)
      (by decide),
   c4_sanitizer_duplicate_handling.2.2.2.1 0 1 PKCS11_CKO_SECRET_KEY
      (by decide) (by decide),
   c4_sanitizer_duplicate_handling.2.2.2.2 0 1 PKCS11_CKA_SENSITIVE 3 1
      (by decide) (Or.inr rfl)⟩

/-- C7 witness: two ID-less objects both receive the identical
16-byte generated ID. -/
theorem c7_add_missing_attribute_id_witness :
    ∃ fresh,
      add_missing_attribute_id (fun _ => 0) [] (some []) =
        (add_attribute [] PKCS11_CKA_ID fresh,
         some (add_attribute [] PKCS11_CKA_ID fresh)) ∧
      fresh.length = PKCS11_CKA_DEFAULT_SIZE ∧
      get_attribute_ptr (add_attribute [] PKCS11_CKA_ID fresh)
        PKCS11_CKA_ID = some fresh ∧
      get_attribute_ptr (add_attribute [] PKCS11_CKA_ID fresh)
        PKCS11_CKA_ID = some fresh :=
  (c7_add_missing_attribute_id_cases (fun _ => 0) [] []).2.2.2 rfl rfl

end Pkcs11
